import Mathlib

/-!
Verification development for the multicopter attitude / rate controller
(`mc_att_control_main.cpp`, with the filter header `LPFwithDelay.hpp`).

Modelling conventions:
* `float` arithmetic is idealised over `ℚ`; decimal literals of the source
  (`0.1f`, `0.4f`, `1e-5f`, ...) are taken at their exact decimal value.
  In this idealisation every value is finite, so `PX4_ISFINITE` holds of
  every controller-internal quantity; the publication-time finiteness guard
  is modelled separately over `Option ℚ` (`none` = non-finite) where a claim
  is about that guard.
* External library routines whose sources are not part of the repository
  snapshot (the `matrix` library's transcendental pieces, the digital filter
  implementations, `math::superexpo`) are abstracted as components of an
  `Ext` record that every controller function receives; theorems quantify
  over `Ext` or constrain only the algebraic facts the source relies on.
* uORB polls only refresh caches of externally produced data; the model
  treats the cached values as fields of the controller state.
-/

namespace MC

abbrev V3 := Fin 3 → ℚ

abbrev V4 := Fin 4 → ℚ

/-- PX4 `math::constrain(val, min_val, max_val)`:
`(val < min_val) ? min_val : ((val > max_val) ? max_val : val)`. -/
def constrain (val lo hi : ℚ) : ℚ :=
  if val < lo then lo else if hi < val then hi else val

/-- PX4 `math::signNoZero`: `1` for nonnegative input, `-1` otherwise. -/
def signNoZero (x : ℚ) : ℚ := if 0 ≤ x then 1 else -1

/-- Component update of a 3-vector (a single indexed assignment). -/
def vset (v : V3) (j : Fin 3) (x : ℚ) : V3 := fun i => if i = j then x else v i

/-- The all-zero 3-vector (`Vector3f::zero()`). -/
def zv3 : V3 := fun _ => 0

/-- Modelled from the spec: the quaternion data model of §3/§4.1 uses the
standard Hamilton product; the `matrix` library implementing it is not part
of the source snapshot. -/
def qmul (p q : V4) : V4 :=
  ![p 0 * q 0 - p 1 * q 1 - p 2 * q 2 - p 3 * q 3,
    p 0 * q 1 + p 1 * q 0 + p 2 * q 3 - p 3 * q 2,
    p 0 * q 2 - p 1 * q 3 + p 2 * q 0 + p 3 * q 1,
    p 0 * q 3 + p 1 * q 2 - p 2 * q 1 + p 3 * q 0]

/-- Squared quaternion norm. -/
def qnormSq (q : V4) : ℚ := q 0 * q 0 + q 1 * q 1 + q 2 * q 2 + q 3 * q 3

/-- Modelled from the spec: quaternion inverse (conjugate over squared norm),
as `matrix::Quaternion::inversed` computes it. -/
def qinv (q : V4) : V4 :=
  ![q 0 / qnormSq q, -q 1 / qnormSq q, -q 2 / qnormSq q, -q 3 / qnormSq q]

/-- Imaginary (axis) part of a quaternion. -/
def qimag (q : V4) : V3 := ![q 1, q 2, q 3]

/-- Modelled from the spec: body-z axis in world frame, the last column of the
rotation matrix of a quaternion (`matrix::Quaternion::dcm_z`). -/
def dcm_z (q : V4) : V3 :=
  ![2 * (q 0 * q 2 + q 1 * q 3),
    2 * (q 2 * q 3 - q 0 * q 1),
    q 0 * q 0 - q 1 * q 1 - q 2 * q 2 + q 3 * q 3]

/-- External library functions abstracted as oracles.  The transcendental
routines (`sqrtf`, `acosf`, ...), the Euler/quaternion conversions, the
thrust-axis-alignment quaternion constructor `Quatf(src, dst)` and all the
digital-filter update routines (`LowPassFilter2p::apply`,
`HighPassFilter::update`, `LPFwithDelay::update` / `get_delay_output`,
`LowPassFilter`, `HighPassFilter2`, `BandPassFilter`, `math::superexpo`)
live outside the source snapshot; each controller function receives them
through this record.  Filter calls are modelled as pure functions of their
per-call arguments; filter memory across iterations is not tracked. -/
structure Ext where
  sqrtQ : ℚ → ℚ
  acosQ : ℚ → ℚ
  asinQ : ℚ → ℚ
  sinQ : ℚ → ℚ
  cosQ : ℚ → ℚ
  eulerOfQuat : V4 → V3
  quatOfEuler : V3 → V4
  quatFromTwoVec : V3 → V3 → V4
  lpfD : Fin 3 → ℚ → ℚ
  hpfTd : Fin 2 → ℚ → ℚ → ℚ
  lpfdelayUpd : Fin 2 → ℚ → ℚ → ℚ
  lpfdelayDelay : Fin 2 → ℚ
  lpfUde : Fin 2 → ℚ → ℚ → ℚ
  hpfUde : Fin 2 → ℚ → ℚ → ℚ
  hpf2Ude : Fin 2 → ℚ → ℚ → ℚ
  bpfUde : Fin 2 → ℚ → ℚ → ℚ
  superexpoQ : ℚ → ℚ → ℚ → ℚ

/-- `matrix` quaternion `normalized`: divide by `sqrt` of the squared norm
(the square root supplied by the external library oracle). -/
def qnormalize (E : Ext) (q : V4) : V4 := fun i => q i / E.sqrtQ (qnormSq q)

/-- `thrust_to_throttle`: clamp thrust to `[0, 7]`, then evaluate the fitted
quartic thrust→throttle polynomial (source lines 595–610). -/
def thrust_to_throttle (thrust : ℚ) : ℚ :=
  let t := constrain thrust 0 7
  (-6892 / 10 ^ 7) * t ^ 4 + (1271 / 10 ^ 5) * t ^ 3
    + (-7948 / 10 ^ 5) * t ^ 2 + (3052 / 10 ^ 4) * t + 8775 / 10 ^ 6

/-- `throttle_to_thrust`: clamp throttle to `[0, 1]`, then evaluate the fitted
quartic throttle→thrust polynomial (source lines 612–627). -/
def throttle_to_thrust (throttle : ℚ) : ℚ :=
  let t := constrain throttle 0 1
  (2052 / 10 ^ 3) * t ^ 4 + (-1111 / 10 ^ 2) * t ^ 3
    + (1565 / 10 ^ 2) * t ^ 2 + (7379 / 10 ^ 4) * t + 2543 / 10 ^ 5

/-- Actuator saturation flags (`_saturation_status.flags`), supplied
externally by the motor-limits topic. -/
structure SatFlags where
  roll_pos : Bool
  roll_neg : Bool
  pitch_pos : Bool
  pitch_neg : Bool
  yaw_pos : Bool
  yaw_neg : Bool

/-- Per-axis positive-saturation flag, as the loop of lines 1185–1189 reads it. -/
def pos_sat_flag (f : SatFlags) : Fin 3 → Bool := ![f.roll_pos, f.pitch_pos, f.yaw_pos]

/-- Per-axis negative-saturation flag, as the loop of lines 1191–1195 reads it. -/
def neg_sat_flag (f : SatFlags) : Fin 3 → Bool := ![f.roll_neg, f.pitch_neg, f.yaw_neg]

/-- Modelled from the spec: the `_ude` status bundle (§3 UDEState / §6 outputs);
its uORB message definition is not part of the source snapshot, so fields are
typed per their use sites (all per-axis arrays as 3-vectors). -/
structure UdeS where
  thrust_sp : ℚ
  start_time : ℚ
  input_time : ℚ
  attitude_ref : V3
  attitude_dot_ref : V3
  attitude_ddot_ref : V3
  attitude_dddot_ref : V3
  attitude_now : V3
  error_attitude : V3
  attitude_rate_now : V3
  error_attitude_rate : V3
  attitude_dot_ref_hpf : V3
  feedforward : V3
  u_l_kp : V3
  u_l_kd : V3
  u_l_km : V3
  u_d : V3
  u_total : V3
  torque_ref : V3
  torque_est : V3
  f1_est : V3
  f1_dot_est : V3
  f2_est : V3
  f_est : V3
  f2 : V3

/-- The `_mixer` telemetry record (source lines 548–593). -/
structure MixS where
  input_roll : ℚ
  input_pitch : ℚ
  input_yaw : ℚ
  input_thrust : ℚ
  F1 : ℚ
  F2 : ℚ
  F3 : ℚ
  F4 : ℚ
  throttle1 : ℚ
  throttle2 : ℚ
  throttle3 : ℚ
  throttle4 : ℚ
  output_roll : ℚ
  output_pitch : ℚ
  output_yaw : ℚ
  output_thrust : ℚ

/-- The controller state: cached external inputs (mode flags, setpoints,
manual sticks, sensors, saturation, battery), the parameter snapshot as
`parameters_updated` stores it (rate limits already in radians), and the
controller-owned mutable state. -/
structure St where
  -- vehicle_control_mode flags
  flag_armed : Bool
  flag_control_attitude_enabled : Bool
  flag_control_rates_enabled : Bool
  flag_control_manual_enabled : Bool
  flag_control_auto_enabled : Bool
  flag_control_velocity_enabled : Bool
  flag_control_rattitude_enabled : Bool
  flag_control_termination_enabled : Bool
  -- vehicle_status
  is_rotary_wing : Bool
  is_vtol : Bool
  -- vehicle_attitude / vehicle_attitude_setpoint caches
  v_att_q : V4
  sp_q_d : V4
  sp_thrust : ℚ
  sp_yaw_sp_move_rate : ℚ
  sp_disable_mc_yaw_control : Bool
  sp_landing_gear : ℚ
  -- vehicle_rates_setpoint cache
  vr_roll : ℚ
  vr_pitch : ℚ
  vr_yaw : ℚ
  vr_thrust : ℚ
  -- manual_control_setpoint cache
  man_x : ℚ
  man_y : ℚ
  man_z : ℚ
  man_r : ℚ
  -- parameter snapshot
  attitude_p : V3
  rate_p : V3
  rate_i : V3
  rate_int_lim : V3
  rate_d : V3
  rate_ff : V3
  mc_rate_max : V3
  auto_rate_max : V3
  acro_rate_max : V3
  yaw_ff_gain : ℚ
  wv_yaw_rate_scale : ℚ
  tpa_breakpoint_p : ℚ
  tpa_breakpoint_i : ℚ
  tpa_breakpoint_d : ℚ
  tpa_rate_p : ℚ
  tpa_rate_i : ℚ
  tpa_rate_d : ℚ
  rattitude_thres : ℚ
  acro_expo_rp : ℚ
  acro_expo_y : ℚ
  acro_superexpo_rp : ℚ
  acro_superexpo_y : ℚ
  bat_scale_en : Bool
  battery_scale : ℚ
  input_source : ℤ
  use_platform : ℤ
  switch_ude : ℤ
  switch_mixer : ℤ
  switch_td : ℤ
  Kp_ude : V3
  Kd_ude : V3
  Km_ude : V3
  T_ude : V3
  integral_limit_ude : V3
  I_quadrotor : V3
  T_filter_ude : ℚ
  T_torque : ℚ
  -- sensor caches
  sensor_gyro : V3
  selected_gyro : ℕ
  gyro_offset_0 : V3
  gyro_offset_1 : V3
  gyro_offset_2 : V3
  gyro_scale_0 : V3
  gyro_scale_1 : V3
  gyro_scale_2 : V3
  board_rotation : Fin 3 → Fin 3 → ℚ
  gyro_bias : V3
  sat : SatFlags
  -- controller-owned mutable state
  rates_sp : V3
  thrust_sp : ℚ
  rates_int : V3
  rates_prev : V3
  rates_prev_filtered : V3
  att_control : V3
  integral_ude : V3
  input_source_time : ℚ
  print_time : ℚ
  last_print_time : ℚ
  attitude_sp_last : V3
  attitude_dot_sp_last : V3
  ude : UdeS
  mix : MixS
  actuators : Fin 8 → ℚ

/-- `pid_attenuations(tpa_breakpoint, tpa_rate)` (source lines 1101–1114):
throttle PID attenuation from `_v_rates_sp.thrust`, floored at
`TPA_RATE_LOWER_LIMIT = 0.05` and capped at 1; yaw is never attenuated. -/
def pid_attenuations (s : St) (tpa_breakpoint tpa_rate : ℚ) : V3 :=
  let tpa0 := 1 - tpa_rate * (|s.vr_thrust| - tpa_breakpoint) / (1 - tpa_breakpoint)
  let tpa := max (1 / 20) (min 1 tpa0)
  ![tpa, tpa, 1]

/-- `mixer(roll, pitch, yaw, throttle)` (source lines 547–593): mix the
commanded torques/throttle to four motor thrusts, convert each thrust to a
throttle via the fitted polynomial, and re-mix the four throttles.  The
publication is a side channel; the function only fills `_mixer`. -/
def mixer (roll pitch yaw throttle : ℚ) : MixS :=
  let thrust := 4 * throttle_to_thrust throttle
  let a : ℚ := 2143 / 1000
  let b : ℚ := 1427 / 100
  let c : ℚ := 1 / 4
  let F1 := -a * roll + a * pitch + b * yaw + c * thrust
  let F2 := a * roll - a * pitch + b * yaw + c * thrust
  let F3 := a * roll + a * pitch - b * yaw + c * thrust
  let F4 := -a * roll - a * pitch - b * yaw + c * thrust
  let t1 := thrust_to_throttle F1
  let t2 := thrust_to_throttle F2
  let t3 := thrust_to_throttle F3
  let t4 := thrust_to_throttle F4
  let d : ℚ := 354 / 1000
  { input_roll := roll, input_pitch := pitch, input_yaw := yaw, input_thrust := throttle,
    F1 := F1, F2 := F2, F3 := F3, F4 := F4,
    throttle1 := t1, throttle2 := t2, throttle3 := t3, throttle4 := t4,
    output_roll := -d * t1 + d * t2 + d * t3 - d * t4,
    output_pitch := d * t1 - d * t2 + d * t3 - d * t4,
    output_yaw := c * (t1 + t2 - t3 - t4),
    output_thrust := c * (t1 + t2 + t3 + t4) }

/-- `(attitude_gain(0) + attitude_gain(1)) / 2` (source line 842). -/
def caRollPitchGain (p : V3) : ℚ := (p 0 + p 1) / 2

/-- Yaw weight `constrain(attitude_gain(2) / roll_pitch_gain, 0, 1)`
(source line 843). -/
def caYawW (p : V3) : ℚ := constrain (p 2 / caRollPitchGain p) 0 1

/-- The attitude gain vector actually applied to the attitude error:
roll/pitch P gains unchanged, yaw entry overwritten with the roll/pitch
average (source line 844). -/
def caGain (p : V3) : V3 := ![p 0, p 1, caRollPitchGain p]

/-- Intermediate results of the platform-mode reference generator
(source lines 852–984). -/
structure PlatformOut where
  thrust_sp : ℚ
  att_ref : V3
  att_dot_ref : V3
  att_ddot_ref : V3
  att_dddot_ref : V3
  qd : V4
  input_source_time : ℚ
  input_time : ℚ

/-- Pass-through values of the platform-mode block of `control_attitude`
(source lines 846-866): desired quaternion and thrust from the attitude
setpoint, reference derivatives zero, timers unchanged. -/
def caPlatformBase (E : Ext) (s : St) : PlatformOut :=
  { thrust_sp := s.sp_thrust, att_ref := E.eulerOfQuat s.sp_q_d, att_dot_ref := zv3,
    att_ddot_ref := zv3, att_dddot_ref := zv3, qd := s.sp_q_d,
    input_source_time := s.input_source_time, input_time := s.ude.input_time }

/-- Platform-mode starting point: the pass-through values with the thrust
setpoint forced to 0.4 (source line 871). -/
def caPlatformB (E : Ext) (s : St) : PlatformOut :=
  { caPlatformBase E s with thrust_sp := (2 : ℚ) / 5 }

/-- Step-input pitch reference schedule of platform input source 1
(source lines 891-903). -/
def caStepRef (t : ℚ) : ℚ :=
  if t < 5 then 0 else if t < 15 then 200 / 573 else if t < 25 then -(200 / 573) else 0

def caPlatform (E : Ext) (dt : ℚ) (s : St) : PlatformOut :=
  if s.use_platform = 1 then
    if s.input_source = 0 then
      { caPlatformB E s with
        att_ref := vset (vset (E.eulerOfQuat s.sp_q_d) 0 0) 1 0,
        qd := E.quatOfEuler (vset (vset (E.eulerOfQuat s.sp_q_d) 0 0) 1 0),
        input_source_time := 0, input_time := 0 }
    else if s.input_source = 1 then
      let a1 := caStepRef s.input_source_time
      let d1 := constrain (4 * (a1 - E.eulerOfQuat s.v_att_q 1)) (-4) 4
      let dd1 := constrain (E.hpfTd 0 d1 dt) (-50) 50
      let ddd1 := constrain (E.hpfTd 1 dd1 dt) (-100) 100
      { caPlatformB E s with
        att_ref := vset (E.eulerOfQuat s.sp_q_d) 1 a1, att_dot_ref := vset zv3 1 d1,
        att_ddot_ref := vset zv3 1 dd1, att_dddot_ref := vset zv3 1 ddd1,
        qd := E.quatOfEuler (vset (E.eulerOfQuat s.sp_q_d) 1 a1),
        input_source_time := s.input_source_time + dt,
        input_time := s.ude.input_time + dt }
    else if s.input_source = 2 then
      let cos_angle := (100 / 191 : ℚ) * E.cosQ (4 * s.input_source_time)
      let sin_angle := (100 / 191 : ℚ) * E.sinQ (4 * s.input_source_time)
      { caPlatformB E s with
        att_ref := vset (E.eulerOfQuat s.sp_q_d) 1 sin_angle,
        att_dot_ref := vset zv3 1 (4 * cos_angle),
        att_ddot_ref := vset zv3 1 (-(4 * 4) * sin_angle),
        att_dddot_ref := vset zv3 1 (-(4 * 4 * 4) * cos_angle),
        qd := E.quatOfEuler (vset (E.eulerOfQuat s.sp_q_d) 1 sin_angle),
        input_source_time := s.input_source_time + dt,
        input_time := s.ude.input_time + dt }
    else if s.input_source = 3 then
      if s.input_source_time < 5 then
        { caPlatformB E s with
          att_ref := vset (E.eulerOfQuat s.sp_q_d) 1 0,
          qd := E.quatOfEuler (vset (E.eulerOfQuat s.sp_q_d) 1 0),
          input_source_time := s.input_source_time + dt,
          input_time := s.ude.input_time + dt }
      else if s.input_source_time < 10 then
        { caPlatformB E s with
          att_ref := vset (E.eulerOfQuat s.sp_q_d) 1 (100 / 191),
          qd := E.quatOfEuler (vset (E.eulerOfQuat s.sp_q_d) 1 (100 / 191)),
          input_source_time := s.input_source_time + dt,
          input_time := s.ude.input_time + dt }
      else if s.input_source_time < 15 then
        { caPlatformB E s with
          att_ref := vset (E.eulerOfQuat s.sp_q_d) 1 (-(100 / 191)),
          qd := E.quatOfEuler (vset (E.eulerOfQuat s.sp_q_d) 1 (-(100 / 191))),
          input_source_time := s.input_source_time + dt,
          input_time := s.ude.input_time + dt }
      else if s.input_source_time < 20 then
        { caPlatformB E s with
          att_ref := vset (E.eulerOfQuat s.sp_q_d) 1 0,
          qd := E.quatOfEuler (vset (E.eulerOfQuat s.sp_q_d) 1 0),
          input_source_time := s.input_source_time + dt,
          input_time := s.ude.input_time + dt }
      else if s.input_source_time < 30 then
        let cos_angle := (100 / 191 : ℚ) * E.cosQ (4 * (s.input_source_time - 20))
        let sin_angle := (100 / 191 : ℚ) * E.sinQ (4 * (s.input_source_time - 20))
        { caPlatformB E s with
          att_ref := vset (E.eulerOfQuat s.sp_q_d) 1 sin_angle,
          att_dot_ref := vset zv3 1 (4 * cos_angle),
          att_ddot_ref := vset zv3 1 (-(4 * 4) * sin_angle),
          att_dddot_ref := vset zv3 1 (-(4 * 4 * 4) * cos_angle),
          qd := E.quatOfEuler (vset (E.eulerOfQuat s.sp_q_d) 1 sin_angle),
          input_source_time := s.input_source_time + dt,
          input_time := s.ude.input_time + dt }
      else if s.input_source_time < 40 then
        { caPlatformB E s with
          att_ref := vset (E.eulerOfQuat s.sp_q_d) 1 0,
          qd := E.quatOfEuler (vset (E.eulerOfQuat s.sp_q_d) 1 0),
          input_source_time := s.input_source_time + dt,
          input_time := s.ude.input_time + dt }
      else
        { caPlatformB E s with
          qd := E.quatOfEuler (E.eulerOfQuat s.sp_q_d),
          input_source_time := s.input_source_time + dt,
          input_time := s.ude.input_time + dt }
    else caPlatformB E s
  else caPlatformBase E s

/-- Reduced/full desired-attitude blend of `control_attitude`
(source lines 990–1012): build the thrust-axis alignment rotation, fall back
to the unreduced desired quaternion in the near-antipodal corner case, then
mix in the yaw of the full desired attitude weighted by `yaw_w`, with the
inverse-trigonometric arguments clamped to `[-1, 1]`. -/
def caBlend (E : Ext) (yaw_w : ℚ) (qn qdn : V4) : V4 :=
  let qd_red0 := E.quatFromTwoVec (dcm_z qn) (dcm_z qdn)
  let qd_red :=
    if 1 - 1 / 100000 < |qd_red0 1| ∨ 1 - 1 / 100000 < |qd_red0 2| then qdn
    else qmul qd_red0 qn
  let q_mix0 := qmul (qinv qd_red) qdn
  let sgn := signNoZero (q_mix0 0)
  let m0 := constrain (sgn * q_mix0 0) (-1) 1
  let m3 := constrain (sgn * q_mix0 3) (-1) 1
  qmul qd_red ![E.cosQ (yaw_w * E.acosQ m0), 0, 0, E.sinQ (yaw_w * E.asinQ m3)]

/-- Rate setpoint before the limiters (source lines 1014–1034): error
quaternion with double-cover sign fix, scaled by the attitude gain, plus the
yaw feed-forward rate projected through the world z-axis in body frame. -/
def caRatesPreClamp (s : St) (gain : V3) (qn qdf : V4) : V3 :=
  let qe := qmul (qinv qn) qdf
  let eqv : V3 := fun i => 2 * signNoZero (qe 0) * qimag qe i
  fun i => eqv i * gain i + dcm_z (qinv qn) i * (s.sp_yaw_sp_move_rate * s.yaw_ff_gain)

/-- Per-axis rate limiting of `control_attitude` (source lines 1037–1046):
auto limits when velocity or auto control is enabled without manual control,
manual limits otherwise. -/
def caClampRates (s : St) (v : V3) : V3 := fun i =>
  if ((s.flag_control_velocity_enabled || s.flag_control_auto_enabled)
      && !s.flag_control_manual_enabled) = true then
    constrain (v i) (-(s.auto_rate_max i)) (s.auto_rate_max i)
  else
    constrain (v i) (-(s.mc_rate_max i)) (s.mc_rate_max i)

/-- Condition of the VTOL weather-vane block (source lines 1049–1058). -/
def caWvActive (s : St) : Prop :=
  s.is_vtol = true ∧ s.sp_disable_mc_yaw_control = true ∧
    (s.flag_control_velocity_enabled = true ∨ s.flag_control_auto_enabled = true)

instance (s : St) : Decidable (caWvActive s) := by
  unfold caWvActive; infer_instance

/-- Rate setpoint of the attitude law after the per-axis limiters
(source lines 986–1046): normalize both quaternions, blend the reduced and
full desired attitudes, apply the attitude law and the per-axis clamp. -/
def caRatesLimited (E : Ext) (dt : ℚ) (yaw_w : ℚ) (gain : V3) (s : St) : V3 :=
  caClampRates s (caRatesPreClamp s gain (qnormalize E s.v_att_q)
    (caBlend E yaw_w (qnormalize E s.v_att_q) (qnormalize E (caPlatform E dt s).qd)))

/-- Weather-vane yaw-rate bound `_auto_rate_max(2) * scale` (source line 1052). -/
def caWvLimit (s : St) : ℚ := s.auto_rate_max 2 * s.wv_yaw_rate_scale

/-- Rate setpoint after the VTOL weather-vane yaw damping
(source lines 1049–1058). -/
def caRatesWv (E : Ext) (dt : ℚ) (yaw_w : ℚ) (gain : V3) (s : St) : V3 :=
  if caWvActive s then
    vset (caRatesLimited E dt yaw_w gain s) 2
      (constrain (caRatesLimited E dt yaw_w gain s 2) (-(caWvLimit s)) (caWvLimit s))
  else caRatesLimited E dt yaw_w gain s

/-- Final `_rates_sp` of `control_attitude`: in platform mode with a UDE
variant configured, the synthesized reference rate overrides the clamped
setpoint (source lines 1061–1069). -/
def caRatesFinal (E : Ext) (dt : ℚ) (yaw_w : ℚ) (gain : V3) (s : St) : V3 :=
  if s.use_platform = 1 ∧ s.switch_ude ≠ 0 then (caPlatform E dt s).att_dot_ref
  else caRatesWv E dt yaw_w gain s

/-- Body of `control_attitude(dt)` (source lines 834–1093) given the derived
yaw weight and attitude gain vector: quaternion attitude law producing
`_rates_sp` and `_thrust_sp`, with platform-mode reference generation,
reduced-attitude blending, rate limiting, weather-vane damping, the
platform-mode rate-setpoint override, and the `_ude` reference logging. -/
def control_attitude_core (E : Ext) (dt : ℚ) (yaw_w : ℚ) (gain : V3) (s : St) : St :=
  let attitude_now := E.eulerOfQuat s.v_att_q
  let P := caPlatform E dt s
  let rates_int1 := if caWvActive s then vset s.rates_int 2 0 else s.rates_int
  let rspF := caRatesFinal E dt yaw_w gain s
  { s with
    thrust_sp := P.thrust_sp, rates_sp := rspF, rates_int := rates_int1,
    input_source_time := P.input_source_time,
    ude := { s.ude with
      thrust_sp := P.thrust_sp,
      attitude_ref := P.att_ref,
      attitude_dot_ref := rspF,
      attitude_ddot_ref := P.att_ddot_ref,
      attitude_dddot_ref := P.att_dddot_ref,
      attitude_now := attitude_now,
      error_attitude := fun i => P.att_ref i - attitude_now i,
      input_time := P.input_time } }

/-- `control_attitude(dt)`: the attitude law proper, with the yaw weight and
the attitude gain vector derived from the parameter snapshot
(source lines 840–844). -/
def control_attitude (E : Ext) (dt : ℚ) (s : St) : St :=
  control_attitude_core E dt (caYawW s.attitude_p) (caGain s.attitude_p) s

/-- Gyro selection and thermal correction (source lines 1130–1151). -/
def car_rates_raw (s : St) : V3 :=
  if s.selected_gyro = 0 then fun i => (s.sensor_gyro i - s.gyro_offset_0 i) * s.gyro_scale_0 i
  else if s.selected_gyro = 1 then fun i => (s.sensor_gyro i - s.gyro_offset_1 i) * s.gyro_scale_1 i
  else if s.selected_gyro = 2 then fun i => (s.sensor_gyro i - s.gyro_offset_2 i) * s.gyro_scale_2 i
  else s.sensor_gyro

/-- Measured body rates: corrected gyro rotated into the body frame, minus
the in-run bias (source lines 1153–1159). -/
def car_rates (s : St) : V3 := fun i =>
  (s.board_rotation i 0 * car_rates_raw s 0 + s.board_rotation i 1 * car_rates_raw s 1
    + s.board_rotation i 2 * car_rates_raw s 2) - s.gyro_bias i

/-- Attenuated I gain per axis (source line 1162). -/
def car_rates_i_scaled (s : St) : V3 := fun i =>
  s.rate_i i * pid_attenuations s s.tpa_breakpoint_i s.tpa_rate_i i

/-- Rate error `_rates_sp - rates` (source line 1166). -/
def car_rates_err (s : St) : V3 := fun i => s.rates_sp i - car_rates s i

/-- Integrator after the disarm / non-rotary-wing reset (source lines
1124–1127). -/
def car_rates_int0 (s : St) : V3 :=
  if s.flag_armed = false ∨ s.is_rotary_wing = false then zv3 else s.rates_int

/-- Integrator after the thrust-gated anti-windup update (source lines
1182–1217): above `MIN_TAKEOFF_THRUST` the per-axis error is clamped by the
saturation flags, integrated forward-Euler, and committed only when strictly
inside the integral limits (the `PX4_ISFINITE` test always holds in the
rational model). -/
def car_rates_int_upd (dt : ℚ) (s : St) : V3 :=
  if 1 / 10 < s.thrust_sp then fun i =>
    let e1 := if pos_sat_flag s.sat i then min (car_rates_err s i) 0 else car_rates_err s i
    let e2 := if neg_sat_flag s.sat i then max e1 0 else e1
    let cand := car_rates_int0 s i + car_rates_i_scaled s i * e2 * dt
    if -(s.rate_int_lim i) < cand ∧ cand < s.rate_int_lim i then cand else car_rates_int0 s i
  else car_rates_int0 s

/-- Integrator after the final explicit per-axis constrain (source lines
1219–1222). -/
def car_rates_int_final (dt : ℚ) (s : St) : V3 := fun i =>
  constrain (car_rates_int_upd dt s i) (-(s.rate_int_lim i)) (s.rate_int_lim i)

/-- `control_attitude_rates(dt)` (source lines 1121–1233): reset the
integrator when disarmed or not rotary-wing, compute the PID output
`_att_control`, update the integrator with per-axis conditional anti-windup
when thrust exceeds `MIN_TAKEOFF_THRUST = 0.1` (discarding out-of-range
results; the `PX4_ISFINITE` test always holds in the rational model),
explicitly constrain the integrator, and record the measured rates and the
yaw torque into the `_ude` bundle. -/
def control_attitude_rates (E : Ext) (dt : ℚ) (s : St) : St :=
  let rates_int0 := car_rates_int0 s
  let rates := car_rates s
  let rates_p_scaled : V3 := fun i =>
    s.rate_p i * pid_attenuations s s.tpa_breakpoint_p s.tpa_rate_p i
  let rates_d_scaled : V3 := fun i =>
    s.rate_d i * pid_attenuations s s.tpa_breakpoint_d s.tpa_rate_d i
  let rates_err := car_rates_err s
  let rates_filtered : V3 := fun i => E.lpfD i (rates i)
  let att_control : V3 := fun i =>
    rates_p_scaled i * rates_err i + rates_int0 i
      - rates_d_scaled i * (rates_filtered i - s.rates_prev_filtered i) / dt
      + s.rate_ff i * s.rates_sp i
  let rates_int2 := car_rates_int_final dt s
  { s with
    rates_int := rates_int2, rates_prev := rates, rates_prev_filtered := rates_filtered,
    att_control := att_control,
    ude := { s.ude with
      attitude_rate_now := rates,
      u_total := vset s.ude.u_total 2 (att_control 2) } }

/-- Entry guard shared by `control_attitude_cascade_ude` and
`control_attitude_ude` (source lines 493–496 / 755–758): zero the UDE
integral when disarmed or not rotary-wing. -/
def ude_reset (s0 : St) : St :=
  { s0 with integral_ude :=
      if s0.flag_armed = false ∨ s0.is_rotary_wing = false then zv3 else s0.integral_ude }

theorem ude_reset_integral (s0 : St) :
    (ude_reset s0).integral_ude
      = if s0.flag_armed = false ∨ s0.is_rotary_wing = false then zv3 else s0.integral_ude := rfl

/-- Entry-guard condition of `control_attitude_m_ude` (source line 638). -/
def mude_reset_cond (s0 : St) : Prop :=
  s0.ude.thrust_sp < 1 / 10 ∨ s0.flag_armed = false ∨ s0.is_rotary_wing = false

instance (s0 : St) : Decidable (mude_reset_cond s0) := by
  unfold mude_reset_cond; infer_instance

/-- Entry guard of `control_attitude_m_ude` (source lines 637–661): below the
previous thrust-setpoint threshold, disarmed, or not rotary-wing, zero the
UDE integral and the estimator fields. -/
def mude_reset (s0 : St) : St :=
  { s0 with
    integral_ude := if mude_reset_cond s0 then zv3 else s0.integral_ude,
    ude := { s0.ude with
      torque_est := if mude_reset_cond s0 then zv3 else s0.ude.torque_est,
      f1_est := if mude_reset_cond s0 then zv3 else s0.ude.f1_est,
      f1_dot_est := if mude_reset_cond s0 then zv3 else s0.ude.f1_dot_est,
      f2_est := if mude_reset_cond s0 then zv3 else s0.ude.f2_est,
      f_est := if mude_reset_cond s0 then zv3 else s0.ude.f_est } }

theorem mude_reset_integral (s0 : St) :
    (mude_reset s0).integral_ude
      = if mude_reset_cond s0 then zv3 else s0.integral_ude := rfl

/-- `control_attitude_cascade_ude(dt)` (source lines 490–544): reset the UDE
integral when disarmed or not rotary-wing, run the attitude law and the rate
controller, then compute the cascade-UDE roll/pitch torques; the integral is
updated only above `MIN_TAKEOFF_THRUST`, discarding out-of-range results. -/
def control_attitude_cascade_ude (E : Ext) (dt : ℚ) (s0 : St) : St :=
  let s1 := ude_reset s0
  let s2 := control_attitude E dt s1
  let s3 := control_attitude_rates E dt s2
  let err_rate : V3 := fun i => s3.ude.attitude_dot_ref i - s3.ude.attitude_rate_now i
  let ffv : V3 := fun i =>
    if i.val < 2 then s3.I_quadrotor i * s3.ude.attitude_ddot_ref i else s3.ude.feedforward i
  let kp : V3 := fun i =>
    if i.val < 2 then s3.Kp_ude i * err_rate i else s3.ude.u_l_kp i
  let ud0 : V3 := fun i =>
    if i.val < 2 then
      s3.I_quadrotor i / s3.T_ude i * err_rate i + 1 / s3.T_ude i * s3.integral_ude i
    else s3.ude.u_d i
  let integral1 : V3 :=
    if 1 / 10 < s3.ude.thrust_sp then fun i =>
      if i.val < 2 then
        let cand := s3.integral_ude i - s3.Kp_ude i * err_rate i * dt
        if -(s3.integral_limit_ude i) < cand ∧ cand < s3.integral_limit_ude i then cand
        else s3.integral_ude i
      else s3.integral_ude i
    else s3.integral_ude
  let ud1 : V3 := fun i =>
    if i.val < 2 then constrain (ud0 i) (-(s3.integral_limit_ude i)) (s3.integral_limit_ude i)
    else ud0 i
  let u_total1 : V3 := fun i =>
    if i.val < 2 then ffv i + kp i - ud1 i else s3.ude.u_total i
  { s3 with
    integral_ude := integral1,
    ude := { s3.ude with
      error_attitude_rate := err_rate, feedforward := ffv, u_l_kp := kp,
      u_d := ud1, u_total := u_total1 } }

/-- `control_attitude_ude(dt)` (source lines 752–827): PD+UDE variant.
Resets the UDE integral when disarmed or not rotary-wing, runs the attitude
law and rate controller, derives a high-pass estimate of the reference rate
from consecutive attitude references, selects the rate-error source by
`switch_td`, and computes the roll/pitch torques; the integral is updated
only above `MIN_TAKEOFF_THRUST`, discarding out-of-range results. -/
def control_attitude_ude (E : Ext) (dt : ℚ) (s0 : St) : St :=
  let s1 := ude_reset s0
  let s2 := control_attitude E dt s1
  let s3 := control_attitude_rates E dt s2
  let hpf0 : V3 := fun i =>
    if i.val < 2 then
      1 / (s3.T_filter_ude + dt) *
        (s3.T_filter_ude * s3.attitude_dot_sp_last i + s3.ude.attitude_ref i
          - s3.attitude_sp_last i)
    else s3.ude.attitude_dot_ref_hpf i
  let hpf1 : V3 := fun i =>
    if i.val < 2 then constrain (hpf0 i) (-4) 4 else hpf0 i
  let sp_last1 := vset (vset s3.attitude_sp_last 0 (s3.ude.attitude_ref 0)) 1
    (s3.ude.attitude_ref 1)
  let err_rate : V3 := fun i =>
    if s3.switch_td = 0 then s3.ude.attitude_dot_ref i - s3.ude.attitude_rate_now i
    else if s3.switch_td = 1 then hpf1 i - s3.ude.attitude_rate_now i
    else s3.ude.error_attitude_rate i
  let ffv : V3 := fun i =>
    if i.val < 2 then s3.I_quadrotor i * s3.ude.attitude_ddot_ref i else s3.ude.feedforward i
  let kp : V3 := fun i =>
    if i.val < 2 then s3.Kp_ude i * s3.ude.error_attitude i else s3.ude.u_l_kp i
  let kd : V3 := fun i =>
    if i.val < 2 then s3.Kd_ude i * err_rate i else s3.ude.u_l_kd i
  let ud0 : V3 := fun i =>
    if i.val < 2 then
      s3.I_quadrotor i / s3.T_ude i * err_rate i + 1 / s3.T_ude i * s3.integral_ude i
    else s3.ude.u_d i
  let integral1 : V3 :=
    if 1 / 10 < s3.ude.thrust_sp then fun i =>
      if i.val < 2 then
        let cand := s3.integral_ude i
          - dt * (ffv i + s3.Kp_ude i * s3.ude.error_attitude i + s3.Kd_ude i * err_rate i)
        if -(s3.integral_limit_ude i) < cand ∧ cand < s3.integral_limit_ude i then cand
        else s3.integral_ude i
      else s3.integral_ude i
    else s3.integral_ude
  let ud1 : V3 := fun i =>
    if i.val < 2 then constrain (ud0 i) (-(s3.integral_limit_ude i)) (s3.integral_limit_ude i)
    else ud0 i
  let u_total1 : V3 := fun i =>
    if i.val < 2 then ffv i + kp i + kd i - ud1 i else s3.ude.u_total i
  { s3 with
    integral_ude := integral1, attitude_sp_last := sp_last1, attitude_dot_sp_last := hpf1,
    ude := { s3.ude with
      attitude_dot_ref_hpf := hpf1, error_attitude_rate := err_rate,
      feedforward := ffv, u_l_kp := kp, u_l_kd := kd, u_d := ud1, u_total := u_total1 } }

/-- `MOTOR_ALPHA = 0.04` (source line 64). -/
def motorAlpha : ℚ := 4 / 100

/-- `control_attitude_m_ude(dt)` (source lines 634–743): motor-dynamics-aware
variant.  Resets the UDE integral and estimator fields when the previous
thrust setpoint is below `MIN_TAKEOFF_THRUST` or the vehicle is disarmed or
not rotary-wing, runs the attitude law and rate controller, reconstructs the
realized torque via the delay-compensated low-pass, decomposes the
disturbance with the filter bank, and computes the roll/pitch torques; the
integral is updated only above `MIN_TAKEOFF_THRUST`. -/
def control_attitude_m_ude (E : Ext) (dt : ℚ) (s0 : St) : St :=
  let s1 := mude_reset s0
  let s2 := control_attitude E dt s1
  let s3 := control_attitude_rates E dt s2
  let err_rate : V3 := fun i => s3.ude.attitude_dot_ref i - s3.ude.attitude_rate_now i
  let torque_ref1 : V3 := fun i =>
    if i.val < 2 then s3.I_quadrotor i * s3.ude.attitude_ddot_ref i else s3.ude.torque_ref i
  let torque_est1 : V3 :=
    vset (vset s3.ude.torque_est 0 (E.lpfdelayUpd 0 (s3.ude.u_total 0) dt)) 1
      (E.lpfdelayUpd 1 (s3.ude.u_total 1) dt)
  let f1_est1 : V3 := fun i =>
    if h : i.val < 2 then
      s3.I_quadrotor i * E.hpfUde ⟨i.val, h⟩ (s3.ude.attitude_rate_now i) dt
        - E.lpfUde ⟨i.val, h⟩ (torque_est1 i) dt
    else s3.ude.f1_est i
  let f1_dot_est1 : V3 := fun i =>
    if h : i.val < 2 then
      s3.I_quadrotor i * E.hpf2Ude ⟨i.val, h⟩ (s3.ude.attitude_rate_now i) dt
        - E.bpfUde ⟨i.val, h⟩ (torque_est1 i) dt
    else s3.ude.f1_dot_est i
  let f2_est1 : V3 := fun i =>
    if i.val < 2 then
      1 / s3.T_torque * torque_est1 i + 1 / (s3.T_torque * motorAlpha) * s3.integral_ude i
    else s3.ude.f2_est i
  let f_est1 : V3 := fun i =>
    if i.val < 2 then motorAlpha * f2_est1 i + f1_est1 i + motorAlpha * f1_dot_est1 i
    else s3.ude.f_est i
  let f2v : V3 := fun i =>
    if h : i.val < 2 then
      1 / motorAlpha * (s3.ude.u_total i - E.lpfdelayDelay ⟨i.val, h⟩)
    else s3.ude.f2 i
  let ffv : V3 := fun i =>
    if i.val < 2 then
      s3.I_quadrotor i * (s3.ude.attitude_ddot_ref i + motorAlpha * s3.ude.attitude_dddot_ref i)
    else s3.ude.feedforward i
  let kp : V3 := fun i =>
    if i.val < 2 then s3.Kp_ude i * s3.ude.error_attitude i else s3.ude.u_l_kp i
  let kd : V3 := fun i =>
    if i.val < 2 then s3.Kd_ude i * err_rate i else s3.ude.u_l_kd i
  let km : V3 := fun i =>
    if i.val < 2 then s3.Km_ude i * (torque_ref1 i - torque_est1 i) else s3.ude.u_l_km i
  let ud1 : V3 := fun i =>
    if i.val < 2 then s3.Km_ude i * f1_est1 i + f_est1 i else s3.ude.u_d i
  let integral1 : V3 :=
    if 1 / 10 < s3.ude.thrust_sp then fun i =>
      if i.val < 2 then
        let cand := s3.integral_ude i
          + dt * (torque_est1 i - ffv i - kp i - kd i - km i
            + (s3.Km_ude i + 1) * f1_est1 i + motorAlpha * f1_dot_est1 i)
        if -(s3.integral_limit_ude i) < cand ∧ cand < s3.integral_limit_ude i then cand
        else s3.integral_ude i
      else s3.integral_ude i
    else s3.integral_ude
  let u_total1 : V3 := fun i =>
    if i.val < 2 then ffv i + kp i + kd i + km i - ud1 i else s3.ude.u_total i
  let pt := s3.print_time + dt
  let lpt := if 5 < pt - s3.last_print_time then pt else s3.last_print_time
  { s3 with
    integral_ude := integral1, print_time := pt, last_print_time := lpt,
    ude := { s3.ude with
      error_attitude_rate := err_rate, torque_ref := torque_ref1, torque_est := torque_est1,
      f1_est := f1_est1, f1_dot_est := f1_dot_est1, f2_est := f2_est1, f_est := f_est1,
      f2 := f2v, feedforward := ffv, u_l_kp := kp, u_l_kd := kd, u_l_km := km,
      u_d := ud1, u_total := u_total1 } }

/-- Battery-voltage compensation (source lines 1404–1408 / 1502–1507): when
enabled and the scale is positive, channels 0–3 are multiplied by the scale. -/
def batteryScale (s : St) (act : Fin 8 → ℚ) : Fin 8 → ℚ :=
  if s.bat_scale_en = true ∧ 0 < s.battery_scale then
    fun i => if i.val < 4 then act i * s.battery_scale else act i
  else act

/-- Assemble channels 0–3 and the landing-gear channel 7 of the actuator
command vector (the `_actuators.control[...]` assignments; the
`PX4_ISFINITE` guard always holds in the rational model). -/
def fillActuators (c0 c1 c2 c3 c7 : ℚ) (old : Fin 8 → ℚ) : Fin 8 → ℚ := fun i =>
  if i = 0 then c0 else if i = 1 then c1 else if i = 2 then c2
  else if i = 3 then c3 else if i = 7 then c7 else old i

/-- Rattitude-mode override (source lines 1336–1341): above the stick
threshold, attitude control is disabled for this tick. -/
def run_rattitude (s0 : St) : St :=
  { s0 with flag_control_attitude_enabled :=
      if s0.flag_control_rattitude_enabled = true ∧
          (s0.rattitude_thres < |s0.man_y| ∨ s0.rattitude_thres < |s0.man_x|) then false
      else s0.flag_control_attitude_enabled }

/-- UDE strategy dispatch (source lines 1347–1356); an out-of-range
`switch_ude` value runs no variant. -/
def run_ude_variant (E : Ext) (dt : ℚ) (s1 : St) : St :=
  if s1.switch_ude = 1 then control_attitude_ude E dt s1
  else if s1.switch_ude = 2 then control_attitude_cascade_ude E dt s1
  else if s1.switch_ude = 3 then control_attitude_m_ude E dt s1
  else s1

/-- Platform-mode zeroing of the roll/yaw commanded torques before routing
(source lines 1362–1366 / 1377–1381). -/
def run_platform_u (sa : St) : St :=
  { sa with ude := { sa.ude with u_total :=
      if sa.use_platform = 1 then vset (vset sa.ude.u_total 0 0) 2 0 else sa.ude.u_total } }

/-- UDE output routing of `run()` (source lines 1358–1419): in the bypass
case the actuator channels come from `_ude.u_total` and the UDE thrust
setpoint; in the mixer case from the re-mixed outputs, zeroing roll/yaw in
platform mode; battery scaling applies to channels 0–3 in both cases.  The
`PX4_ISFINITE` guard always holds in the rational model. -/
def run_ude_branch (E : Ext) (dt : ℚ) (s1 : St) : St :=
  let sa := run_ude_variant E dt s1
  let sb := run_platform_u sa
  let mx2 :=
    if sb.switch_mixer = 0 then sb.mix
    else
      let mx := mixer (sb.ude.u_total 0) (sb.ude.u_total 1) (sb.ude.u_total 2) sb.ude.thrust_sp
      if sb.use_platform = 1 then { mx with output_roll := 0, output_yaw := 0 } else mx
  let act :=
    if sb.switch_mixer = 0 then
      fillActuators (sb.ude.u_total 0) (sb.ude.u_total 1) (sb.ude.u_total 2)
        sb.ude.thrust_sp sb.sp_landing_gear sb.actuators
    else
      fillActuators mx2.output_roll mx2.output_pitch mx2.output_yaw
        mx2.output_thrust sb.sp_landing_gear sb.actuators
  { sb with mix := mx2, actuators := batteryScale sb act }

/-- Classical control path of `run()` (source lines 1421–1532): the attitude
law (publishing the rate setpoint), the acro stick mapping, or the cached
rates setpoint, followed by the rate controller and actuator assembly with
platform-mode zeroing and battery scaling. -/
def run_pid_branch (E : Ext) (dt : ℚ) (s1 : St) : St :=
  let sb :=
    if s1.flag_control_attitude_enabled = true then
      let sc := control_attitude E dt s1
      { sc with
        vr_roll := sc.rates_sp 0, vr_pitch := sc.rates_sp 1,
        vr_yaw := sc.rates_sp 2, vr_thrust := sc.thrust_sp }
    else if s1.flag_control_manual_enabled = true then
      let rsp : V3 :=
        ![E.superexpoQ s1.man_y s1.acro_expo_rp s1.acro_superexpo_rp * s1.acro_rate_max 0,
          E.superexpoQ (-s1.man_x) s1.acro_expo_rp s1.acro_superexpo_rp * s1.acro_rate_max 1,
          E.superexpoQ s1.man_r s1.acro_expo_y s1.acro_superexpo_y * s1.acro_rate_max 2]
      { s1 with
        rates_sp := rsp, thrust_sp := s1.man_z,
        vr_roll := rsp 0, vr_pitch := rsp 1, vr_yaw := rsp 2, vr_thrust := s1.man_z }
    else
      { s1 with
        rates_sp := ![s1.vr_roll, s1.vr_pitch, s1.vr_yaw], thrust_sp := s1.vr_thrust }
  if sb.flag_control_rates_enabled = true then
    let sc := control_attitude_rates E dt sb
    let sd :=
      if sc.use_platform = 1 then
        { sc with att_control := vset (vset sc.att_control 0 0) 2 0 }
      else sc
    let act := fillActuators (sd.att_control 0) (sd.att_control 1) (sd.att_control 2)
      sd.thrust_sp sd.sp_landing_gear sd.actuators
    { sd with actuators := batteryScale sd act }
  else sb

/-- One iteration of the `run()` control loop after the gyro sample and the
input polls (source lines 1333–1593): the rattitude override, the strategy
selection between the UDE branch and the classical path, the UDE status
timestamping, and the flight-termination override.  The once-per-second
loop-rate estimation (lines 1579–1593) only retunes the externally modelled
derivative filter and is not tracked. -/
def run (E : Ext) (dt : ℚ) (s0 : St) : St :=
  let s1 := run_rattitude s0
  let s2 := if s1.switch_ude ≠ 0 then run_ude_branch E dt s1 else run_pid_branch E dt s1
  let s3 := { s2 with ude := { s2.ude with start_time := s2.ude.start_time + dt } }
  if s3.flag_control_termination_enabled = true ∧ s3.is_vtol = false then
    { s3 with
      rates_sp := zv3, rates_int := zv3, integral_ude := zv3, thrust_sp := 0,
      att_control := zv3,
      actuators := fun i => if i.val < 4 then 0 else s3.actuators i }
  else s3

/-- Modelled over `Option ℚ` (`none` = non-finite): the `PX4_ISFINITE`
substitution applied to each actuator channel before publication
(source lines 1369–1372 and 1488–1491). -/
def sanitizeChannel (x : Option ℚ) : ℚ :=
  match x with
  | some v => v
  | none => 0

/-- The actuator publication stage of one `run()` iteration over possibly
non-finite computed channel values: the `PX4_ISFINITE`-or-zero substitution
(lines 1369–1372 / 1488–1491) followed by battery-voltage scaling
(lines 1404–1408 / 1502–1507) on channels 0–3. -/
def publish_actuators (computed : Fin 4 → Option ℚ) (bat_en : Bool) (scale : ℚ) :
    Fin 4 → ℚ :=
  if bat_en = true ∧ 0 < scale then fun i => sanitizeChannel (computed i) * scale
  else fun i => sanitizeChannel (computed i)

/-- Concrete oracle used by the closed evaluation theorems: each external
routine is given a simple total rational realisation (exact where the
theorems rely on it, e.g. `sqrt 1 = 1`, `acos 1 = 0`, `cos 0 = 1`). -/
def ext0 : Ext where
  sqrtQ := fun x => if x = 1 then 1 else 0
  acosQ := fun x => if x = 1 then 0 else 1
  asinQ := fun _ => 0
  sinQ := fun _ => 0
  cosQ := fun x => if x = 0 then 1 else 0
  eulerOfQuat := fun _ => zv3
  quatOfEuler := fun _ => ![1, 0, 0, 0]
  quatFromTwoVec := fun _ _ => ![0, 1, 0, 0]
  lpfD := fun _ x => x
  hpfTd := fun _ _ _ => 0
  lpfdelayUpd := fun _ x _ => x
  lpfdelayDelay := fun _ => 0
  lpfUde := fun _ x _ => x
  hpfUde := fun _ x _ => x
  hpf2Ude := fun _ x _ => x
  bpfUde := fun _ x _ => x
  superexpoQ := fun x _ _ => x

/-- A neutral concrete controller state for the closed evaluation theorems:
armed rotary-wing vehicle at identity attitude, identity board rotation, raw
gyro selected, zero gains except where individual theorems override them. -/
def base : St where
  flag_armed := true
  flag_control_attitude_enabled := false
  flag_control_rates_enabled := false
  flag_control_manual_enabled := false
  flag_control_auto_enabled := false
  flag_control_velocity_enabled := false
  flag_control_rattitude_enabled := false
  flag_control_termination_enabled := false
  is_rotary_wing := true
  is_vtol := false
  v_att_q := ![1, 0, 0, 0]
  sp_q_d := ![1, 0, 0, 0]
  sp_thrust := 0
  sp_yaw_sp_move_rate := 0
  sp_disable_mc_yaw_control := false
  sp_landing_gear := 0
  vr_roll := 0
  vr_pitch := 0
  vr_yaw := 0
  vr_thrust := 0
  man_x := 0
  man_y := 0
  man_z := 0
  man_r := 0
  attitude_p := ![1, 1, 1]
  rate_p := zv3
  rate_i := zv3
  rate_int_lim := ![3 / 10, 3 / 10, 3 / 10]
  rate_d := zv3
  rate_ff := zv3
  mc_rate_max := ![1, 1, 1]
  auto_rate_max := ![1, 1, 1]
  acro_rate_max := ![1, 1, 1]
  yaw_ff_gain := 0
  wv_yaw_rate_scale := 0
  tpa_breakpoint_p := 0
  tpa_breakpoint_i := 0
  tpa_breakpoint_d := 0
  tpa_rate_p := 0
  tpa_rate_i := 0
  tpa_rate_d := 0
  rattitude_thres := 1
  acro_expo_rp := 0
  acro_expo_y := 0
  acro_superexpo_rp := 0
  acro_superexpo_y := 0
  bat_scale_en := false
  battery_scale := 0
  input_source := 0
  use_platform := 0
  switch_ude := 0
  switch_mixer := 0
  switch_td := 0
  Kp_ude := zv3
  Kd_ude := zv3
  Km_ude := zv3
  T_ude := ![1, 1, 1]
  integral_limit_ude := ![1, 1, 1]
  I_quadrotor := ![1 / 100, 1 / 100, 3 / 200]
  T_filter_ude := 1
  T_torque := 1
  sensor_gyro := zv3
  selected_gyro := 3
  gyro_offset_0 := zv3
  gyro_offset_1 := zv3
  gyro_offset_2 := zv3
  gyro_scale_0 := fun _ => 1
  gyro_scale_1 := fun _ => 1
  gyro_scale_2 := fun _ => 1
  board_rotation := fun i j => if i = j then 1 else 0
  gyro_bias := zv3
  sat := { roll_pos := false, roll_neg := false, pitch_pos := false, pitch_neg := false,
           yaw_pos := false, yaw_neg := false }
  rates_sp := zv3
  thrust_sp := 0
  rates_int := zv3
  rates_prev := zv3
  rates_prev_filtered := zv3
  att_control := zv3
  integral_ude := zv3
  input_source_time := 0
  print_time := 0
  last_print_time := 0
  attitude_sp_last := zv3
  attitude_dot_sp_last := zv3
  ude := { thrust_sp := 0, start_time := 0, input_time := 0, attitude_ref := zv3,
           attitude_dot_ref := zv3, attitude_ddot_ref := zv3, attitude_dddot_ref := zv3,
           attitude_now := zv3, error_attitude := zv3, attitude_rate_now := zv3,
           error_attitude_rate := zv3, attitude_dot_ref_hpf := zv3, feedforward := zv3,
           u_l_kp := zv3, u_l_kd := zv3, u_l_km := zv3, u_d := zv3, u_total := zv3,
           torque_ref := zv3, torque_est := zv3, f1_est := zv3, f1_dot_est := zv3,
           f2_est := zv3, f_est := zv3, f2 := zv3 }
  mix := { input_roll := 0, input_pitch := 0, input_yaw := 0, input_thrust := 0,
           F1 := 0, F2 := 0, F3 := 0, F4 := 0, throttle1 := 0, throttle2 := 0,
           throttle3 := 0, throttle4 := 0, output_roll := 0, output_pitch := 0,
           output_yaw := 0, output_thrust := 0 }
  actuators := fun _ => 0

theorem constrain_mem {lo hi : ℚ} (x : ℚ) (h : lo ≤ hi) :
    lo ≤ constrain x lo hi ∧ constrain x lo hi ≤ hi := by
  unfold constrain
  split_ifs with h1 h2
  · exact ⟨le_refl lo, h⟩
  · exact ⟨h, le_refl hi⟩
  · exact ⟨le_of_not_gt h1, le_of_not_gt h2⟩

theorem constrain_eq_self {lo hi x : ℚ} (h1 : lo ≤ x) (h2 : x ≤ hi) :
    constrain x lo hi = x := by
  unfold constrain
  rw [if_neg (not_lt.mpr h1), if_neg (not_lt.mpr h2)]

theorem abs_constrain_le {l : ℚ} (x : ℚ) (h : 0 ≤ l) :
    |constrain x (-l) l| ≤ l := by
  rcases constrain_mem x (neg_le_self h) with ⟨h1, h2⟩
  exact abs_le.mpr ⟨h1, h2⟩

theorem abs_constrain_le_abs {w : ℚ} (x : ℚ) (h : 0 ≤ w) :
    |constrain x (-w) w| ≤ |x| := by
  unfold constrain
  split_ifs with h1 h2
  · rw [abs_neg, abs_of_nonneg h]
    calc w ≤ -x := by linarith
    _ ≤ |x| := neg_le_abs x
  · rw [abs_of_nonneg h]
    calc w ≤ x := le_of_lt h2
    _ ≤ |x| := le_abs_self x
  · exact le_refl _

/-- Claim C8 (counterexample): the thrust/throttle round trip is not within
1% of the input over the whole valid domain `[0, 1]`.  At `t = 0` the round
trip returns about `0.0165`, which is farther than `0.01` from `0` (and any
relative 1% bound at `0` is `0`). -/
theorem c8_roundtrip_counterexample :
    1 / 100 < |thrust_to_throttle (throttle_to_thrust 0) - 0| := by
  refine lt_abs.mpr (Or.inl ?_)
  norm_num [thrust_to_throttle, throttle_to_thrust, constrain]

/-- Claim C8 (amended): the round trip is within 1% only away from the domain
boundaries: at mid throttle `t = 1/2` it is within 1% (relative) of `t`,
while at `t = 0` the error exceeds the 1% absolute bound and at `t = 1` it
exceeds 4% (the upper clamp of `thrust_to_throttle` saturates there). -/
theorem c8_roundtrip_mid_range :
    |thrust_to_throttle (throttle_to_thrust (1 / 2)) - 1 / 2| ≤ 1 / 100 * (1 / 2) ∧
    1 / 100 < |thrust_to_throttle (throttle_to_thrust 0) - 0| ∧
    1 / 25 < |thrust_to_throttle (throttle_to_thrust 1) - 1| := by
  refine ⟨abs_le.mpr ⟨?_, ?_⟩, lt_abs.mpr (Or.inl ?_), lt_abs.mpr (Or.inr ?_)⟩ <;>
    norm_num [thrust_to_throttle, throttle_to_thrust, constrain]

theorem car_rates_int_proj (E : Ext) (dt : ℚ) (s : St) :
    (control_attitude_rates E dt s).rates_int = car_rates_int_final dt s := rfl

theorem car_int0_armed {s : St} (harm : s.flag_armed = true)
    (hrw : s.is_rotary_wing = true) : car_rates_int0 s = s.rates_int := by
  unfold car_rates_int0
  rw [if_neg]
  simp [harm, hrw]

theorem car_upd_pos_sat (dt : ℚ) (s : St) (i : Fin 3) (hth : 1 / 10 < s.thrust_sp)
    (hpos : pos_sat_flag s.sat i = true) (herr : 0 ≤ car_rates_err s i) :
    car_rates_int_upd dt s i = car_rates_int0 s i := by
  unfold car_rates_int_upd
  rw [if_pos hth]
  simp only [hpos, if_true, min_eq_right herr]
  cases h : neg_sat_flag s.sat i <;> simp [h]

theorem car_upd_neg_sat (dt : ℚ) (s : St) (i : Fin 3) (hth : 1 / 10 < s.thrust_sp)
    (hneg : neg_sat_flag s.sat i = true) (herr : car_rates_err s i ≤ 0) :
    car_rates_int_upd dt s i = car_rates_int0 s i := by
  unfold car_rates_int_upd
  rw [if_pos hth]
  simp only [hneg, if_true]
  cases h : pos_sat_flag s.sat i <;>
    simp [h, min_eq_left herr, max_eq_right herr]

/-- Claim C9: after every call to `control_attitude_rates`, each axis of the
integrator lies in the closed interval `[-_rate_int_lim(i), _rate_int_lim(i)]`
(for a nonnegative configured limit), regardless of arming state, thrust,
saturation flags, or prior integrator value, because the function ends with
an unconditional per-axis constrain. -/
theorem c9_integrator_within_limits (E : Ext) (dt : ℚ) (s : St) (i : Fin 3)
    (h : 0 ≤ s.rate_int_lim i) :
    -(s.rate_int_lim i) ≤ (control_attitude_rates E dt s).rates_int i ∧
      (control_attitude_rates E dt s).rates_int i ≤ s.rate_int_lim i := by
  rw [car_rates_int_proj]
  unfold car_rates_int_final
  exact constrain_mem _ (by linarith)

/-- Claim C9 (witness): the bound instantiated on a concrete state. -/
theorem c9_integrator_within_limits_witness :
    -(base.rate_int_lim 0) ≤ (control_attitude_rates ext0 (1 / 250) base).rates_int 0 ∧
      (control_attitude_rates ext0 (1 / 250) base).rates_int 0 ≤ base.rate_int_lim 0 :=
  c9_integrator_within_limits ext0 (1 / 250) base 0 (by norm_num [base])

/-- Concrete state for the claim C2 counterexample: armed, thrust effective,
positively saturated roll axis with positive rate error, but a prior roll
integrator value below the (newly tightened) integral limit. -/
def stC2 : St :=
  { base with
    rates_sp := ![1, 0, 0]
    thrust_sp := 1 / 2
    rate_i := ![1, 0, 0]
    rate_int_lim := ![1, 1, 1]
    rates_int := ![-5, 0, 0]
    sat := { roll_pos := true, roll_neg := false, pitch_pos := false, pitch_neg := false,
             yaw_pos := false, yaw_neg := false } }

/-- Claim C2 (counterexample): all hypotheses of the claim hold on `stC2`
(positive saturation, positive rate error, nonnegative attenuated I gain,
positive `dt`, effective thrust), yet one call to `control_attitude_rates`
strictly increases the roll integrator: the prior value `-5` lies outside the
integral limit `1`, the update leaves it unchanged, and the final constrain
raises it to `-1`. -/
theorem c2_antiwindup_counterexample :
    pos_sat_flag stC2.sat 0 = true ∧ 0 < car_rates_err stC2 0 ∧
      0 ≤ car_rates_i_scaled stC2 0 ∧ (0 : ℚ) < 1 / 250 ∧ 1 / 10 < stC2.thrust_sp ∧
      stC2.rates_int 0 < (control_attitude_rates ext0 (1 / 250) stC2).rates_int 0 := by
  have h : (control_attitude_rates ext0 (1 / 250) stC2).rates_int 0 = -1 := by
    rw [car_rates_int_proj]
    norm_num [car_rates_int_final, car_rates_int_upd, car_rates_int0, car_rates_err,
      car_rates, car_rates_raw, car_rates_i_scaled, pid_attenuations, pos_sat_flag,
      neg_sat_flag, constrain, vset, zv3, stC2, base]
  refine ⟨rfl, ?_, ?_, by norm_num, ?_, ?_⟩
  · norm_num [car_rates_err, car_rates, car_rates_raw, stC2, base, zv3]
  · norm_num [car_rates_i_scaled, pid_attenuations, stC2, base, zv3]
  · norm_num [stC2, base]
  · rw [h]
    norm_num [stC2, base]

/-- Claim C2 (amended): the claim holds once the vehicle is armed and
rotary-wing and the prior integrator value lies within the integral limits
(the counterexample shows the final constrain can raise an out-of-range
prior value, and the disarm reset can raise a negative one): with the
positive-saturation flag set and nonnegative rate error the integrator does
not increase, and symmetrically with the negative flag and nonpositive error
it does not decrease. -/
theorem c2_antiwindup (E : Ext) (dt : ℚ) (s : St) (i : Fin 3)
    (harm : s.flag_armed = true) (hrw : s.is_rotary_wing = true)
    (hth : 1 / 10 < s.thrust_sp)
    (hlo : -(s.rate_int_lim i) ≤ s.rates_int i) (hhi : s.rates_int i ≤ s.rate_int_lim i) :
    (pos_sat_flag s.sat i = true → 0 ≤ car_rates_err s i →
      (control_attitude_rates E dt s).rates_int i ≤ s.rates_int i) ∧
    (neg_sat_flag s.sat i = true → car_rates_err s i ≤ 0 →
      s.rates_int i ≤ (control_attitude_rates E dt s).rates_int i) := by
  constructor
  · intro hpos herr
    rw [car_rates_int_proj]
    unfold car_rates_int_final
    rw [car_upd_pos_sat dt s i hth hpos herr, car_int0_armed harm hrw,
      constrain_eq_self hlo hhi]
  · intro hneg herr
    rw [car_rates_int_proj]
    unfold car_rates_int_final
    rw [car_upd_neg_sat dt s i hth hneg herr, car_int0_armed harm hrw,
      constrain_eq_self hlo hhi]

/-- Claim C2 (witness): the amended theorem instantiated on a concrete armed
state with an in-range prior integrator. -/
theorem c2_antiwindup_witness :
    (control_attitude_rates ext0 (1 / 250)
        { stC2 with rates_int := zv3 }).rates_int 0 ≤ { stC2 with rates_int := zv3 }.rates_int 0 :=
  (c2_antiwindup ext0 (1 / 250) { stC2 with rates_int := zv3 } 0 rfl rfl
    (by norm_num [stC2, base]) (by norm_num [stC2, base, zv3])
    (by norm_num [stC2, base, zv3])).1 rfl
    (by norm_num [car_rates_err, car_rates, car_rates_raw, stC2, base, zv3])

theorem ca_integral_ude_proj (E : Ext) (dt : ℚ) (s : St) :
    (control_attitude E dt s).integral_ude = s.integral_ude := rfl

theorem car_integral_ude_proj (E : Ext) (dt : ℚ) (s : St) :
    (control_attitude_rates E dt s).integral_ude = s.integral_ude := rfl

theorem car_ude_thrust_proj (E : Ext) (dt : ℚ) (s : St) :
    (control_attitude_rates E dt s).ude.thrust_sp = s.ude.thrust_sp := rfl

theorem ca_ude_thrust_proj (E : Ext) (dt : ℚ) (s : St) :
    (control_attitude E dt s).ude.thrust_sp = (caPlatform E dt s).thrust_sp := rfl

theorem caPlatform_thrust (E : Ext) (dt : ℚ) (s : St) :
    (caPlatform E dt s).thrust_sp = if s.use_platform = 1 then (2 : ℚ) / 5 else s.sp_thrust := by
  unfold caPlatform
  by_cases h1 : s.use_platform = 1
  · rw [if_pos h1, if_pos h1]
    by_cases h2 : s.input_source = 0
    · rw [if_pos h2]; rfl
    rw [if_neg h2]
    by_cases h3 : s.input_source = 1
    · rw [if_pos h3]; rfl
    rw [if_neg h3]
    by_cases h4 : s.input_source = 2
    · rw [if_pos h4]; rfl
    rw [if_neg h4]
    by_cases h5 : s.input_source = 3
    · rw [if_pos h5]
      by_cases g1 : s.input_source_time < 5
      · rw [if_pos g1]; rfl
      rw [if_neg g1]
      by_cases g2 : s.input_source_time < 10
      · rw [if_pos g2]; rfl
      rw [if_neg g2]
      by_cases g3 : s.input_source_time < 15
      · rw [if_pos g3]; rfl
      rw [if_neg g3]
      by_cases g4 : s.input_source_time < 20
      · rw [if_pos g4]; rfl
      rw [if_neg g4]
      by_cases g5 : s.input_source_time < 30
      · rw [if_pos g5]; rfl
      rw [if_neg g5]
      by_cases g6 : s.input_source_time < 40
      · rw [if_pos g6]; rfl
      rw [if_neg g6]; rfl
    · rw [if_neg h5]; rfl
  · rw [if_neg h1, if_neg h1]; rfl

/-- Effective thrust setpoint after `control_attitude` (0.4 in platform mode,
the attitude-setpoint thrust otherwise). -/
def effective_thrust (s : St) : ℚ := if s.use_platform = 1 then (2 : ℚ) / 5 else s.sp_thrust

theorem pdude_integral_zero (E : Ext) (dt : ℚ) (s0 : St)
    (hreset : s0.flag_armed = false ∨ s0.is_rotary_wing = false)
    (hgate : ¬ (1 / 10 < effective_thrust s0)) :
    (control_attitude_ude E dt s0).integral_ude = zv3 := by
  simp only [control_attitude_ude]
  rw [car_integral_ude_proj, car_ude_thrust_proj, ca_ude_thrust_proj, ca_integral_ude_proj,
    caPlatform_thrust]
  rw [if_neg (show ¬ (1 / 10 < if (ude_reset s0).use_platform = 1 then (2 : ℚ) / 5
      else (ude_reset s0).sp_thrust) from hgate)]
  rw [ude_reset_integral, if_pos hreset]

theorem cascade_integral_zero (E : Ext) (dt : ℚ) (s0 : St)
    (hreset : s0.flag_armed = false ∨ s0.is_rotary_wing = false)
    (hgate : ¬ (1 / 10 < effective_thrust s0)) :
    (control_attitude_cascade_ude E dt s0).integral_ude = zv3 := by
  simp only [control_attitude_cascade_ude]
  rw [car_integral_ude_proj, car_ude_thrust_proj, ca_ude_thrust_proj, ca_integral_ude_proj,
    caPlatform_thrust]
  rw [if_neg (show ¬ (1 / 10 < if (ude_reset s0).use_platform = 1 then (2 : ℚ) / 5
      else (ude_reset s0).sp_thrust) from hgate)]
  rw [ude_reset_integral, if_pos hreset]

theorem mude_integral_zero (E : Ext) (dt : ℚ) (s0 : St)
    (hreset : mude_reset_cond s0)
    (hgate : ¬ (1 / 10 < effective_thrust s0)) :
    (control_attitude_m_ude E dt s0).integral_ude = zv3 := by
  simp only [control_attitude_m_ude]
  rw [car_integral_ude_proj, car_ude_thrust_proj, ca_ude_thrust_proj, ca_integral_ude_proj,
    caPlatform_thrust]
  rw [if_neg (show ¬ (1 / 10 < if (mude_reset s0).use_platform = 1 then (2 : ℚ) / 5
      else (mude_reset s0).sp_thrust) from hgate)]
  rw [mude_reset_integral, if_pos hreset]

theorem cascade_integral_keep (E : Ext) (dt : ℚ) (s0 : St)
    (harm : s0.flag_armed = true) (hrw : s0.is_rotary_wing = true)
    (hgate : ¬ (1 / 10 < effective_thrust s0)) :
    (control_attitude_cascade_ude E dt s0).integral_ude = s0.integral_ude := by
  simp only [control_attitude_cascade_ude]
  have hno : ¬ (s0.flag_armed = false ∨ s0.is_rotary_wing = false) := by simp [harm, hrw]
  rw [car_integral_ude_proj, car_ude_thrust_proj, ca_ude_thrust_proj, ca_integral_ude_proj,
    caPlatform_thrust]
  rw [if_neg (show ¬ (1 / 10 < if (ude_reset s0).use_platform = 1 then (2 : ℚ) / 5
      else (ude_reset s0).sp_thrust) from hgate)]
  rw [ude_reset_integral, if_neg hno]

/-- Concrete state for the claim C3 counterexample: disarmed, but with the
thrust setpoint at 0.5 and a unit roll rate error with unit I gain. -/
def stC3 : St :=
  { base with
    flag_armed := false
    thrust_sp := 1 / 2
    rates_sp := ![1, 0, 0]
    rate_i := ![1, 0, 0] }

/-- Claim C3 (counterexample): with the vehicle disarmed but the thrust
setpoint at 0.5 (the claim quantifies over any thrust setpoint and rate
error), one call to `control_attitude_rates` leaves the roll integrator at
`1/250`, not zero: the disarm reset is followed by the thrust-gated integral
update, which re-integrates the rate error within the same call. -/
theorem c3_disarm_counterexample :
    stC3.flag_armed = false ∧
      (control_attitude_rates ext0 (1 / 250) stC3).rates_int 0 = 1 / 250 ∧ ((1 : ℚ) / 250 ≠ 0) := by
  refine ⟨rfl, ?_, by norm_num⟩
  rw [car_rates_int_proj]
  norm_num [car_rates_int_final, car_rates_int_upd, car_rates_int0, car_rates_err,
    car_rates, car_rates_raw, car_rates_i_scaled, pid_attenuations, pos_sat_flag,
    neg_sat_flag, constrain, vset, zv3, stC3, base]

/-- Claim C3 (amended): if the vehicle is disarmed then after one call the
rate integrator and the UDE integral are exactly zero, provided additionally
that the respective thrust setpoints do not exceed `MIN_TAKEOFF_THRUST`
(`_thrust_sp` for the rate controller, the attitude-setpoint thrust with
platform mode off for the UDE variant) and the integral limits are
nonnegative; above that thrust the integral update re-runs after the disarm
reset, as the counterexample shows. -/
theorem c3_disarm_zero (E : Ext) (dt : ℚ) (s : St) (harm : s.flag_armed = false)
    (hth : s.thrust_sp ≤ 1 / 10) (hlim : ∀ i, 0 ≤ s.rate_int_lim i)
    (hplat : s.use_platform ≠ 1) (hsp : s.sp_thrust ≤ 1 / 10) :
    (∀ i, (control_attitude_rates E dt s).rates_int i = 0) ∧
      (∀ i, (control_attitude_ude E dt s).integral_ude i = 0) := by
  have hg : ¬ (1 / 10 < effective_thrust s) := by
    unfold effective_thrust
    rw [if_neg hplat]
    exact not_lt.mpr hsp
  constructor
  · intro i
    rw [car_rates_int_proj]
    unfold car_rates_int_final
    have h1 : car_rates_int_upd dt s = car_rates_int0 s := by
      unfold car_rates_int_upd
      rw [if_neg (not_lt.mpr hth)]
    have h2 : car_rates_int0 s = zv3 := by
      unfold car_rates_int0
      rw [if_pos (Or.inl harm)]
    rw [h1, h2]
    have h3 : -(s.rate_int_lim i) ≤ zv3 i := by
      have := hlim i
      simp only [zv3]
      linarith
    rw [constrain_eq_self h3 (hlim i)]
    rfl
  · intro i
    rw [pdude_integral_zero E dt s (Or.inl harm) hg]
    rfl

/-- Concrete disarmed low-thrust state for the C1/C3 witnesses. -/
def stDis : St := { base with flag_armed := false }

/-- Claim C3 (witness): the amended theorem instantiated on a concrete
disarmed low-thrust state. -/
theorem c3_disarm_zero_witness :
    (control_attitude_rates ext0 (1 / 250) stDis).rates_int 0 = 0 ∧
      (control_attitude_ude ext0 (1 / 250) stDis).integral_ude 0 = 0 :=
  ⟨(c3_disarm_zero ext0 (1 / 250) stDis rfl (by norm_num [stDis, base])
      (by intro i; fin_cases i <;> norm_num [stDis, base])
      (by norm_num [stDis, base]) (by norm_num [stDis, base])).1 0,
    (c3_disarm_zero ext0 (1 / 250) stDis rfl (by norm_num [stDis, base])
      (by intro i; fin_cases i <;> norm_num [stDis, base])
      (by norm_num [stDis, base]) (by norm_num [stDis, base])).2 0⟩

/-- Concrete state for the claim C1 counterexample: armed rotary-wing
vehicle, thrust setpoint 0.05 (below the minimum-effective threshold), with
a nonzero prior UDE integral. -/
def stC1 : St :=
  { base with
    sp_thrust := 1 / 20
    thrust_sp := 1 / 20
    integral_ude := ![1 / 2, 0, 0]
    ude := { base.ude with thrust_sp := 1 / 20 } }

/-- Claim C1 (counterexample): with the thrust setpoint below
`MIN_TAKEOFF_THRUST` but the vehicle armed and rotary-wing, one call to
`control_attitude_cascade_ude` leaves the prior nonzero UDE integral
untouched: low thrust only skips the integral update, it does not reset the
uncertainty state. -/
theorem c1_ude_reset_counterexample :
    stC1.flag_armed = true ∧ stC1.is_rotary_wing = true ∧ stC1.sp_thrust < 1 / 10 ∧
      (control_attitude_cascade_ude ext0 (1 / 250) stC1).integral_ude 0 = 1 / 2 ∧
      ((1 : ℚ) / 2 ≠ 0) := by
  refine ⟨rfl, rfl, by norm_num [stC1, base], ?_, by norm_num⟩
  rw [cascade_integral_keep ext0 (1 / 250) stC1 rfl rfl
    (by norm_num [effective_thrust, stC1, base])]
  norm_num [stC1, base]

/-- Claim C1 (amended): a UDE variant's uncertainty integral is guaranteed
zero after one call when the vehicle is disarmed or not rotary-wing and the
attitude-setpoint thrust does not exceed `MIN_TAKEOFF_THRUST` (platform mode
off).  Low thrust alone resets nothing in the cascade and PD+UDE variants
(the counterexample), and the m-variant zeroes its estimator fields only at
entry, recomputing them from the filters before returning. -/
theorem c1_ude_reset_zero (E : Ext) (dt : ℚ) (s : St)
    (hdis : s.flag_armed = false ∨ s.is_rotary_wing = false)
    (hplat : s.use_platform ≠ 1) (hsp : s.sp_thrust ≤ 1 / 10) :
    (∀ i, (control_attitude_cascade_ude E dt s).integral_ude i = 0) ∧
      (∀ i, (control_attitude_ude E dt s).integral_ude i = 0) ∧
      (∀ i, (control_attitude_m_ude E dt s).integral_ude i = 0) := by
  have hg : ¬ (1 / 10 < effective_thrust s) := by
    unfold effective_thrust
    rw [if_neg hplat]
    exact not_lt.mpr hsp
  refine ⟨fun i => ?_, fun i => ?_, fun i => ?_⟩
  · rw [cascade_integral_zero E dt s hdis hg]; rfl
  · rw [pdude_integral_zero E dt s hdis hg]; rfl
  · rw [mude_integral_zero E dt s (show mude_reset_cond s from Or.inr hdis) hg]; rfl

/-- Claim C1 (witness): the amended theorem instantiated on a concrete
disarmed low-thrust state. -/
theorem c1_ude_reset_zero_witness :
    (control_attitude_cascade_ude ext0 (1 / 250) stDis).integral_ude 0 = 0 ∧
      (control_attitude_m_ude ext0 (1 / 250) stDis).integral_ude 0 = 0 :=
  ⟨(c1_ude_reset_zero ext0 (1 / 250) stDis (Or.inl rfl)
      (by norm_num [stDis, base]) (by norm_num [stDis, base])).1 0,
    (c1_ude_reset_zero ext0 (1 / 250) stDis (Or.inl rfl)
      (by norm_num [stDis, base]) (by norm_num [stDis, base])).2.2 0⟩

/-- Computed channel values for the claim C7 counterexample: all channels
finite, channel 0 equal to 1. -/
def cC7 : Fin 4 → Option ℚ := fun i => if i = 0 then some 1 else some 0

/-- Claim C7 (counterexample): with battery scaling enabled at scale 2 and a
finite computed channel value of 1, the published channel 0 equals 2, which
is neither the computed finite value nor exactly zero: battery scaling is
applied after the finiteness guard and before publication. -/
theorem c7_publish_counterexample :
    ¬ (publish_actuators cC7 true 2 0 = 0 ∨ cC7 0 = some (publish_actuators cC7 true 2 0)) := by
  norm_num [publish_actuators, sanitizeChannel, cC7]

/-- Claim C7 (amended): each published channel 0–3 equals the battery scale
factor (the scale when scaling is enabled and the scale is positive, 1
otherwise) times the computed value when that value is finite, and times
exactly zero when it is non-finite; in particular every non-finite computed
channel publishes exactly zero. -/
theorem c7_publish_guard (computed : Fin 4 → Option ℚ) (bat_en : Bool) (scale : ℚ)
    (i : Fin 4) :
    publish_actuators computed bat_en scale i =
      (if bat_en = true ∧ 0 < scale then scale else 1) * sanitizeChannel (computed i) := by
  unfold publish_actuators
  split_ifs with h
  · show sanitizeChannel (computed i) * scale = scale * sanitizeChannel (computed i)
    exact mul_comm _ _
  · show sanitizeChannel (computed i) = 1 * sanitizeChannel (computed i)
    exact (one_mul _).symm

/-- Claim C10: the yaw component of the attitude error is multiplied by the
average of the roll and pitch P gains, not by the configured yaw P gain,
which enters the rate setpoint only through the yaw weight
`clamp(yaw_p / average(roll_p, pitch_p), 0, 1)`: replacing the yaw P gain by
any value with the same clamped ratio leaves the rate setpoint unchanged. -/
theorem c10_yaw_gain (E : Ext) (dt : ℚ) (s : St) (g : ℚ)
    (h : constrain (g / caRollPitchGain s.attitude_p) 0 1 = caYawW s.attitude_p) :
    (control_attitude E dt { s with attitude_p := vset s.attitude_p 2 g }).rates_sp
        = (control_attitude E dt s).rates_sp ∧
      caGain s.attitude_p 2 = (s.attitude_p 0 + s.attitude_p 1) / 2 ∧
      caYawW s.attitude_p = constrain (s.attitude_p 2 / ((s.attitude_p 0 + s.attitude_p 1) / 2)) 0 1 := by
  have hg : caGain (vset s.attitude_p 2 g) = caGain s.attitude_p := by
    funext i
    fin_cases i <;> simp [caGain, caRollPitchGain, vset]
  have hw : caYawW (vset s.attitude_p 2 g) = caYawW s.attitude_p := by
    unfold caYawW caRollPitchGain
    simpa [vset] using h
  refine ⟨?_, rfl, rfl⟩
  calc (control_attitude E dt { s with attitude_p := vset s.attitude_p 2 g }).rates_sp
      = (control_attitude_core E dt (caYawW (vset s.attitude_p 2 g))
          (caGain (vset s.attitude_p 2 g)) { s with attitude_p := vset s.attitude_p 2 g }).rates_sp := rfl
    _ = (control_attitude_core E dt (caYawW s.attitude_p)
          (caGain s.attitude_p) { s with attitude_p := vset s.attitude_p 2 g }).rates_sp := by
          rw [hw, hg]
    _ = (control_attitude E dt s).rates_sp := rfl

/-- Claim C10 (witness): the invariance instantiated on a concrete state,
replacing the yaw P gain 1 by 7 (both give clamped ratio 1). -/
theorem c10_yaw_gain_witness :
    (control_attitude ext0 (1 / 250) { base with attitude_p := vset base.attitude_p 2 7 }).rates_sp
      = (control_attitude ext0 (1 / 250) base).rates_sp :=
  (c10_yaw_gain ext0 (1 / 250) base 7
    (by norm_num [caRollPitchGain, caYawW, constrain, base])).1

theorem ca_rates_sp_proj (E : Ext) (dt : ℚ) (s : St) :
    (control_attitude E dt s).rates_sp
      = caRatesFinal E dt (caYawW s.attitude_p) (caGain s.attitude_p) s := rfl

/-- The limit the claim calls applicable: the auto-mode limit when velocity
or auto control is enabled without manual control, the manual-mode limit
otherwise (the branch condition of source lines 1038–1045). -/
def applicable_limit (s : St) (i : Fin 3) : ℚ :=
  if ((s.flag_control_velocity_enabled || s.flag_control_auto_enabled)
      && !s.flag_control_manual_enabled) = true then
    s.auto_rate_max i
  else s.mc_rate_max i

theorem caRatesLimited_bound (E : Ext) (dt : ℚ) (yaw_w : ℚ) (gain : V3) (s : St)
    (hauto : ∀ i, 0 ≤ s.auto_rate_max i) (hmc : ∀ i, 0 ≤ s.mc_rate_max i) (i : Fin 3) :
    |caRatesLimited E dt yaw_w gain s i| ≤ applicable_limit s i := by
  unfold caRatesLimited caClampRates applicable_limit
  split_ifs with h
  · exact abs_constrain_le _ (hauto i)
  · exact abs_constrain_le _ (hmc i)

/-- Concrete state for the claim C5 counterexample: platform mode with a UDE
variant configured and the step input source active, manual control mode,
with manual rate limits of 1 rad/s. -/
def stC5 : St :=
  { base with
    use_platform := 1
    switch_ude := 1
    input_source := 1
    input_source_time := 6
    flag_control_manual_enabled := true }

/-- Claim C5 (counterexample): in platform mode with a UDE variant
configured, `control_attitude` overrides the clamped rate setpoint with the
synthesized reference rate (source lines 1061–1069), which is not limited by
the configured per-axis limits: with the step input active the pitch rate
setpoint is `800/573 ≈ 1.40 rad/s`, above the manual-mode limit of 1. -/
theorem c5_rate_limit_counterexample :
    applicable_limit stC5 1 < |(control_attitude ext0 (1 / 250) stC5).rates_sp 1| := by
  refine lt_abs.mpr (Or.inl ?_)
  rw [ca_rates_sp_proj]
  norm_num [caRatesFinal, caPlatform, caPlatformB, caPlatformBase, caStepRef,
    applicable_limit, constrain, vset, zv3, stC5, base, ext0]

/-- Claim C5 (amended): outside the platform-mode override (platform mode
off or no UDE variant configured), for any quaternions and gains the rate
setpoint produced by `control_attitude` does not exceed the applicable
per-axis limit in magnitude, provided the configured limits and the
weather-vane scale are nonnegative. -/
theorem c5_rate_limits (E : Ext) (dt : ℚ) (s : St)
    (hplat : ¬ (s.use_platform = 1 ∧ s.switch_ude ≠ 0))
    (hauto : ∀ i, 0 ≤ s.auto_rate_max i) (hmc : ∀ i, 0 ≤ s.mc_rate_max i)
    (hwv : 0 ≤ s.wv_yaw_rate_scale) (i : Fin 3) :
    |(control_attitude E dt s).rates_sp i| ≤ applicable_limit s i := by
  rw [ca_rates_sp_proj]
  unfold caRatesFinal
  rw [if_neg hplat]
  unfold caRatesWv
  by_cases hw : caWvActive s
  · rw [if_pos hw]
    by_cases hi : i = 2
    · subst hi
      unfold vset
      rw [if_pos rfl]
      calc |constrain (caRatesLimited E dt (caYawW s.attitude_p) (caGain s.attitude_p) s 2)
              (-(caWvLimit s)) (caWvLimit s)|
          ≤ |caRatesLimited E dt (caYawW s.attitude_p) (caGain s.attitude_p) s 2| :=
            abs_constrain_le_abs _ (mul_nonneg (hauto 2) hwv)
        _ ≤ applicable_limit s 2 :=
            caRatesLimited_bound E dt (caYawW s.attitude_p) (caGain s.attitude_p) s hauto hmc 2
    · unfold vset
      rw [if_neg hi]
      exact caRatesLimited_bound E dt (caYawW s.attitude_p) (caGain s.attitude_p) s hauto hmc i
  · rw [if_neg hw]
    exact caRatesLimited_bound E dt (caYawW s.attitude_p) (caGain s.attitude_p) s hauto hmc i

/-- Claim C5 (witness): the amended bound instantiated on a concrete state. -/
theorem c5_rate_limits_witness :
    |(control_attitude ext0 (1 / 250) base).rates_sp 0| ≤ applicable_limit base 0 :=
  c5_rate_limits ext0 (1 / 250) base (by norm_num [base])
    (by intro i; fin_cases i <;> norm_num [base])
    (by intro i; fin_cases i <;> norm_num [base]) (by norm_num [base]) 0

theorem qnormalize_unit (E : Ext) {q : V4} (h : qnormSq q = 1) (hs : E.sqrtQ 1 = 1) :
    qnormalize E q = q := by
  funext i
  simp [qnormalize, h, hs]

theorem caPlatform_qd_off (E : Ext) (dt : ℚ) (s : St) (hplat : s.use_platform ≠ 1) :
    (caPlatform E dt s).qd = s.sp_q_d := by
  unfold caPlatform
  rw [if_neg hplat]
  rfl

theorem qmul_inv_self_head (q : V4) (h : qnormSq q = 1) : qmul (qinv q) q 0 = 1 := by
  have e : qmul (qinv q) q 0 = qnormSq q / qnormSq q := by
    simp [qmul, qinv, qnormSq]
    ring
  rw [e, h]
  norm_num

theorem qmul_inv_self_i3 (q : V4) : qmul (qinv q) q 3 = 0 := by
  simp [qmul, qinv]
  ring

theorem qmul_unit_right (q : V4) : qmul q ![1, 0, 0, 0] = q := by
  funext i
  fin_cases i <;> simp [qmul]

theorem caBlend_degenerate (E : Ext) (yaw_w : ℚ) (qn qdn : V4)
    (hqd : qnormSq qdn = 1)
    (hacos : E.acosQ 1 = 0) (hasin : E.asinQ 0 = 0) (hcos : E.cosQ 0 = 1) (hsin : E.sinQ 0 = 0)
    (hdeg : 1 - 1 / 100000 < |E.quatFromTwoVec (dcm_z qn) (dcm_z qdn) 1| ∨
      1 - 1 / 100000 < |E.quatFromTwoVec (dcm_z qn) (dcm_z qdn) 2|) :
    caBlend E yaw_w qn qdn = qdn := by
  simp only [caBlend]
  rw [if_pos hdeg]
  rw [qmul_inv_self_head qdn hqd, qmul_inv_self_i3 qdn]
  have hsgn : signNoZero (1 : ℚ) = 1 := by norm_num [signNoZero]
  rw [hsgn, one_mul, one_mul]
  have hc1 : constrain (1 : ℚ) (-1) 1 = 1 := by norm_num [constrain]
  have hc0 : constrain (0 : ℚ) (-1) 1 = 0 := by norm_num [constrain]
  rw [hc1, hc0, hacos, mul_zero, hcos, hasin, mul_zero, hsin]
  exact qmul_unit_right qdn

/-- Modelled from the spec: the rate setpoint the attitude law would produce
directly from the unreduced desired quaternion (the comparator of the
degenerate-alignment property of §8: "must equal the
unreduced-desired-quaternion result"), running the same error law, per-axis
clamp and weather-vane damping with the blended attitude replaced by the
normalized desired quaternion itself. -/
def ca_unreduced_rates_sp (E : Ext) (gain : V3) (s : St) : V3 :=
  if caWvActive s then
    vset (caClampRates s (caRatesPreClamp s gain (qnormalize E s.v_att_q)
        (qnormalize E s.sp_q_d))) 2
      (constrain (caClampRates s (caRatesPreClamp s gain (qnormalize E s.v_att_q)
          (qnormalize E s.sp_q_d)) 2)
        (-(caWvLimit s)) (caWvLimit s))
  else
    caClampRates s (caRatesPreClamp s gain (qnormalize E s.v_att_q) (qnormalize E s.sp_q_d))

/-- Claim C6: when the thrust-axis alignment quaternion satisfies the
near-antipodal test of source line 995 (thrust axes within ~1e-5 of exactly
opposite), `control_attitude` takes the fallback branch using the unreduced
desired quaternion, and the resulting rate setpoint equals the
unreduced-desired-quaternion result (hypotheses: platform mode off, both
quaternions unit, and the external square root / inverse-trigonometric
routines exact at the values 1 and 0 the source relies on; totality of the
rational model gives finiteness). -/
theorem c6_degenerate_fallback (E : Ext) (dt : ℚ) (s : St)
    (hplat : s.use_platform ≠ 1)
    (hq : qnormSq s.v_att_q = 1) (hqd : qnormSq s.sp_q_d = 1)
    (hsqrt : E.sqrtQ 1 = 1) (hacos : E.acosQ 1 = 0) (hasin : E.asinQ 0 = 0)
    (hcos : E.cosQ 0 = 1) (hsin : E.sinQ 0 = 0)
    (hdeg : 1 - 1 / 100000 < |E.quatFromTwoVec (dcm_z s.v_att_q) (dcm_z s.sp_q_d) 1| ∨
      1 - 1 / 100000 < |E.quatFromTwoVec (dcm_z s.v_att_q) (dcm_z s.sp_q_d) 2|) :
    (control_attitude E dt s).rates_sp = ca_unreduced_rates_sp E (caGain s.attitude_p) s := by
  have hqn : qnormalize E s.v_att_q = s.v_att_q := qnormalize_unit E hq hsqrt
  have hqdn : qnormalize E s.sp_q_d = s.sp_q_d := qnormalize_unit E hqd hsqrt
  rw [ca_rates_sp_proj]
  unfold caRatesFinal
  rw [if_neg (fun hc => hplat hc.1)]
  unfold caRatesWv caRatesLimited
  rw [caPlatform_qd_off E dt s hplat, hqn, hqdn,
    caBlend_degenerate E (caYawW s.attitude_p) s.v_att_q s.sp_q_d hqd hacos hasin hcos hsin hdeg]
  unfold ca_unreduced_rates_sp
  rw [hqn, hqdn]

/-- Claim C6 (witness): the fallback equality instantiated on a concrete
state and oracle for which the near-antipodal test fires. -/
theorem c6_degenerate_fallback_witness :
    (control_attitude ext0 (1 / 250) base).rates_sp
      = ca_unreduced_rates_sp ext0 (caGain base.attitude_p) base :=
  c6_degenerate_fallback ext0 (1 / 250) base (by norm_num [base])
    (by norm_num [qnormSq, base]) (by norm_num [qnormSq, base])
    (by norm_num [ext0]) (by norm_num [ext0]) (by norm_num [ext0])
    (by norm_num [ext0]) (by norm_num [ext0])
    (Or.inl (by refine lt_abs.mpr (Or.inl ?_); norm_num [ext0]))

theorem car_u_total2 (E : Ext) (dt : ℚ) (s : St) :
    (control_attitude_rates E dt s).ude.u_total 2
      = (control_attitude_rates E dt s).att_control 2 := by
  simp only [control_attitude_rates]
  simp [vset]

theorem pdude_u2 (E : Ext) (dt : ℚ) (s0 : St) :
    (control_attitude_ude E dt s0).ude.u_total 2
      = (control_attitude_ude E dt s0).att_control 2 := by
  simp only [control_attitude_ude]
  rw [if_neg (show ¬ ((2 : Fin 3).val < 2) by decide)]
  exact car_u_total2 E dt _

theorem cascade_u2 (E : Ext) (dt : ℚ) (s0 : St) :
    (control_attitude_cascade_ude E dt s0).ude.u_total 2
      = (control_attitude_cascade_ude E dt s0).att_control 2 := by
  simp only [control_attitude_cascade_ude]
  rw [if_neg (show ¬ ((2 : Fin 3).val < 2) by decide)]
  exact car_u_total2 E dt _

theorem mude_u2 (E : Ext) (dt : ℚ) (s0 : St) :
    (control_attitude_m_ude E dt s0).ude.u_total 2
      = (control_attitude_m_ude E dt s0).att_control 2 := by
  simp only [control_attitude_m_ude]
  rw [if_neg (show ¬ ((2 : Fin 3).val < 2) by decide)]
  exact car_u_total2 E dt _

theorem run_ude_branch_u2 (E : Ext) (dt : ℚ) (s1 : St)
    (hu2 : (run_ude_variant E dt s1).ude.u_total 2 = (run_ude_variant E dt s1).att_control 2)
    (hplat : ¬ ((run_ude_variant E dt s1).use_platform = 1)) :
    (run_ude_branch E dt s1).ude.u_total 2 = (run_ude_branch E dt s1).att_control 2 ∧
      ((run_ude_variant E dt s1).switch_mixer = 0 →
        ¬ ((run_ude_variant E dt s1).bat_scale_en = true ∧
            0 < (run_ude_variant E dt s1).battery_scale) →
        (run_ude_branch E dt s1).actuators 2 = (run_ude_branch E dt s1).att_control 2) := by
  have e3 : (run_platform_u (run_ude_variant E dt s1)).ude.u_total
      = (if (run_ude_variant E dt s1).use_platform = 1 then
          vset (vset (run_ude_variant E dt s1).ude.u_total 0 0) 2 0
        else (run_ude_variant E dt s1).ude.u_total) := rfl
  have hu : (run_platform_u (run_ude_variant E dt s1)).ude.u_total 2
      = (run_ude_variant E dt s1).att_control 2 := by
    rw [e3, if_neg hplat]
    exact hu2
  constructor
  · show (run_platform_u (run_ude_variant E dt s1)).ude.u_total 2
        = (run_ude_variant E dt s1).att_control 2
    exact hu
  · intro hm hbat
    show batteryScale (run_platform_u (run_ude_variant E dt s1))
        (if (run_platform_u (run_ude_variant E dt s1)).switch_mixer = 0 then
          fillActuators ((run_platform_u (run_ude_variant E dt s1)).ude.u_total 0)
            ((run_platform_u (run_ude_variant E dt s1)).ude.u_total 1)
            ((run_platform_u (run_ude_variant E dt s1)).ude.u_total 2)
            ((run_platform_u (run_ude_variant E dt s1)).ude.thrust_sp)
            ((run_platform_u (run_ude_variant E dt s1)).sp_landing_gear)
            ((run_platform_u (run_ude_variant E dt s1)).actuators)
        else _) 2
        = (run_ude_variant E dt s1).att_control 2
    rw [if_pos (show (run_platform_u (run_ude_variant E dt s1)).switch_mixer = 0 from hm)]
    unfold batteryScale
    rw [if_neg (show ¬ ((run_platform_u (run_ude_variant E dt s1)).bat_scale_en = true ∧
        0 < (run_platform_u (run_ude_variant E dt s1)).battery_scale) from hbat)]
    show (run_platform_u (run_ude_variant E dt s1)).ude.u_total 2
        = (run_ude_variant E dt s1).att_control 2
    exact hu

theorem pdude_pres (E : Ext) (dt : ℚ) (s1 : St) :
    (control_attitude_ude E dt s1).use_platform = s1.use_platform ∧
      (control_attitude_ude E dt s1).switch_mixer = s1.switch_mixer ∧
      (control_attitude_ude E dt s1).bat_scale_en = s1.bat_scale_en ∧
      (control_attitude_ude E dt s1).battery_scale = s1.battery_scale ∧
      (control_attitude_ude E dt s1).flag_control_termination_enabled
        = s1.flag_control_termination_enabled ∧
      (control_attitude_ude E dt s1).is_vtol = s1.is_vtol := by
  refine ⟨?_, ?_, ?_, ?_, ?_, ?_⟩ <;>
    simp only [control_attitude_ude, control_attitude_rates, control_attitude,
      control_attitude_core, ude_reset]

theorem cascade_pres (E : Ext) (dt : ℚ) (s1 : St) :
    (control_attitude_cascade_ude E dt s1).use_platform = s1.use_platform ∧
      (control_attitude_cascade_ude E dt s1).switch_mixer = s1.switch_mixer ∧
      (control_attitude_cascade_ude E dt s1).bat_scale_en = s1.bat_scale_en ∧
      (control_attitude_cascade_ude E dt s1).battery_scale = s1.battery_scale ∧
      (control_attitude_cascade_ude E dt s1).flag_control_termination_enabled
        = s1.flag_control_termination_enabled ∧
      (control_attitude_cascade_ude E dt s1).is_vtol = s1.is_vtol := by
  refine ⟨?_, ?_, ?_, ?_, ?_, ?_⟩ <;>
    simp only [control_attitude_cascade_ude, control_attitude_rates, control_attitude,
      control_attitude_core, ude_reset]

set_option maxHeartbeats 2000000 in
theorem mude_pres (E : Ext) (dt : ℚ) (s1 : St) :
    (control_attitude_m_ude E dt s1).use_platform = s1.use_platform ∧
      (control_attitude_m_ude E dt s1).switch_mixer = s1.switch_mixer ∧
      (control_attitude_m_ude E dt s1).bat_scale_en = s1.bat_scale_en ∧
      (control_attitude_m_ude E dt s1).battery_scale = s1.battery_scale ∧
      (control_attitude_m_ude E dt s1).flag_control_termination_enabled
        = s1.flag_control_termination_enabled ∧
      (control_attitude_m_ude E dt s1).is_vtol = s1.is_vtol := by
  refine ⟨?_, ?_, ?_, ?_, ?_, ?_⟩ <;>
    simp only [control_attitude_m_ude, control_attitude_rates, control_attitude,
      control_attitude_core, mude_reset]

theorem run_ude_variant_pres (E : Ext) (dt : ℚ) (s1 : St) :
    (run_ude_variant E dt s1).use_platform = s1.use_platform ∧
      (run_ude_variant E dt s1).switch_mixer = s1.switch_mixer ∧
      (run_ude_variant E dt s1).bat_scale_en = s1.bat_scale_en ∧
      (run_ude_variant E dt s1).battery_scale = s1.battery_scale ∧
      (run_ude_variant E dt s1).flag_control_termination_enabled
        = s1.flag_control_termination_enabled ∧
      (run_ude_variant E dt s1).is_vtol = s1.is_vtol := by
  unfold run_ude_variant
  split_ifs with h1 h2 h3
  · exact pdude_pres E dt s1
  · exact cascade_pres E dt s1
  · exact mude_pres E dt s1
  · exact ⟨rfl, rfl, rfl, rfl, rfl, rfl⟩

/-- Claim C4 (amended): whenever one of the three UDE variants is active
(`switch_ude ∈ {1,2,3}`), platform mode is off, and flight termination is
not engaged, one `run()` iteration leaves `_ude.u_total[2]` equal to the
Rate Controller's yaw output `_att_control(2)` (the variants write only the
roll and pitch torque channels), and with the mixer bypassed and battery
scaling inactive, published actuator channel 2 equals that yaw output. -/
theorem c4_yaw_passthrough (E : Ext) (dt : ℚ) (s0 : St)
    (hsw : s0.switch_ude = 1 ∨ s0.switch_ude = 2 ∨ s0.switch_ude = 3)
    (hplat : ¬ (s0.use_platform = 1))
    (hterm : ¬ (s0.flag_control_termination_enabled = true ∧ s0.is_vtol = false)) :
    (run E dt s0).ude.u_total 2 = (run E dt s0).att_control 2 ∧
      (s0.switch_mixer = 0 → ¬ (s0.bat_scale_en = true ∧ 0 < s0.battery_scale) →
        (run E dt s0).actuators 2 = (run E dt s0).att_control 2) := by
  have hne : (run_rattitude s0).switch_ude ≠ 0 := by
    show s0.switch_ude ≠ 0
    rcases hsw with h | h | h <;> simp [h]
  have hvar : (run_ude_variant E dt (run_rattitude s0)).ude.u_total 2
      = (run_ude_variant E dt (run_rattitude s0)).att_control 2 := by
    unfold run_ude_variant
    rcases hsw with h | h | h
    · rw [if_pos (show (run_rattitude s0).switch_ude = 1 from h)]
      exact pdude_u2 E dt _
    · rw [if_neg (show ¬ ((run_rattitude s0).switch_ude = 1) from by
          show ¬ (s0.switch_ude = 1); simp [h]),
        if_pos (show (run_rattitude s0).switch_ude = 2 from h)]
      exact cascade_u2 E dt _
    · rw [if_neg (show ¬ ((run_rattitude s0).switch_ude = 1) from by
          show ¬ (s0.switch_ude = 1); simp [h]),
        if_neg (show ¬ ((run_rattitude s0).switch_ude = 2) from by
          show ¬ (s0.switch_ude = 2); simp [h]),
        if_pos (show (run_rattitude s0).switch_ude = 3 from h)]
      exact mude_u2 E dt _
  have hup : ¬ ((run_ude_variant E dt (run_rattitude s0)).use_platform = 1) := by
    rw [(run_ude_variant_pres E dt (run_rattitude s0)).1]
    exact hplat
  have hB := run_ude_branch_u2 E dt (run_rattitude s0) hvar hup
  have hflag : (run_ude_branch E dt (run_rattitude s0)).flag_control_termination_enabled
      = s0.flag_control_termination_enabled := by
    have e : (run_ude_branch E dt (run_rattitude s0)).flag_control_termination_enabled
        = (run_ude_variant E dt (run_rattitude s0)).flag_control_termination_enabled := by
      simp only [run_ude_branch, run_platform_u]
    rw [e, (run_ude_variant_pres E dt (run_rattitude s0)).2.2.2.2.1]
    simp only [run_rattitude]
  have hvtol : (run_ude_branch E dt (run_rattitude s0)).is_vtol = s0.is_vtol := by
    have e : (run_ude_branch E dt (run_rattitude s0)).is_vtol
        = (run_ude_variant E dt (run_rattitude s0)).is_vtol := by
      simp only [run_ude_branch, run_platform_u]
    rw [e, (run_ude_variant_pres E dt (run_rattitude s0)).2.2.2.2.2]
    simp only [run_rattitude]
  simp only [run]
  rw [if_pos hne]
  rw [if_neg (show ¬ ((run_ude_branch E dt (run_rattitude s0)).flag_control_termination_enabled
        = true ∧ (run_ude_branch E dt (run_rattitude s0)).is_vtol = false) from
      fun hc => hterm ⟨hflag ▸ hc.1, hvtol ▸ hc.2⟩)]
  constructor
  · exact hB.1
  · intro hm hbat
    refine hB.2 ?_ ?_
    · rw [(run_ude_variant_pres E dt (run_rattitude s0)).2.1]
      exact hm
    · rw [(run_ude_variant_pres E dt (run_rattitude s0)).2.2.1,
        (run_ude_variant_pres E dt (run_rattitude s0)).2.2.2.1]
      exact hbat

/-- Explicit formula for the rate-controller PID output `_att_control`
(source lines 1169–1180). -/
theorem car_att_control_proj (E : Ext) (dt : ℚ) (s : St) (i : Fin 3) :
    (control_attitude_rates E dt s).att_control i
      = s.rate_p i * pid_attenuations s s.tpa_breakpoint_p s.tpa_rate_p i * car_rates_err s i
        + car_rates_int0 s i
        - s.rate_d i * pid_attenuations s s.tpa_breakpoint_d s.tpa_rate_d i
          * (E.lpfD i (car_rates s i) - s.rates_prev_filtered i) / dt
        + s.rate_ff i * s.rates_sp i := rfl

/-- Projection identity: the PD+UDE variant leaves `_att_control` as the
rate controller computed it. -/
theorem pdude_att_control (E : Ext) (dt : ℚ) (s0 : St) :
    (control_attitude_ude E dt s0).att_control
      = (control_attitude_rates E dt (control_attitude E dt (ude_reset s0))).att_control := by
  simp only [control_attitude_ude]

/-- Concrete platform-mode state for the claim C4 counterexample: PD+UDE
variant active, platform mode on with input source 0, unit yaw rate gain and
a measured yaw rate of -1 rad/s. -/
def stC4 : St :=
  { base with
    use_platform := 1
    switch_ude := 1
    rate_p := ![0, 0, 1]
    sensor_gyro := ![0, 0, -1] }

/-- Claim C4 (counterexample): in platform mode (`use_platform == 1`) the
`run()` routine zeroes `_ude.u_total(0)` and `_ude.u_total(2)` after the UDE
variant returns (source lines 1361–1366), so with the rate controller's yaw
output equal to 1 the yaw torque channel no longer equals `_att_control(2)`
even though a UDE variant is active. -/
theorem c4_yaw_counterexample :
    stC4.switch_ude ≠ 0 ∧
      (run ext0 (1 / 250) stC4).att_control 2 = 1 ∧
      (run ext0 (1 / 250) stC4).ude.u_total 2 = 0 := by
  have hA : run_rattitude stC4 = stC4 := by
    simp only [run_rattitude]
    rw [if_neg (show ¬ (stC4.flag_control_rattitude_enabled = true ∧
        (stC4.rattitude_thres < |stC4.man_y| ∨ stC4.rattitude_thres < |stC4.man_x|)) from
      fun hc => by simp [stC4, base] at hc)]
  have hupl : (run_ude_variant ext0 (1 / 250) stC4).use_platform = 1 :=
    ((run_ude_variant_pres ext0 (1 / 250) stC4).1).trans rfl
  have hflag : (run_ude_branch ext0 (1 / 250) stC4).flag_control_termination_enabled
      = false := by
    have e : (run_ude_branch ext0 (1 / 250) stC4).flag_control_termination_enabled
        = (run_ude_variant ext0 (1 / 250) stC4).flag_control_termination_enabled := by
      simp only [run_ude_branch, run_platform_u]
    exact e.trans (((run_ude_variant_pres ext0 (1 / 250) stC4).2.2.2.2.1).trans rfl)
  have hAtt : (run_ude_branch ext0 (1 / 250) stC4).att_control 2 = 1 := by
    have e : (run_ude_branch ext0 (1 / 250) stC4).att_control
        = (run_ude_variant ext0 (1 / 250) stC4).att_control := by
      simp only [run_ude_branch, run_platform_u]
    rw [e]
    unfold run_ude_variant
    rw [if_pos (show stC4.switch_ude = 1 from rfl)]
    rw [pdude_att_control, car_att_control_proj]
    norm_num [control_attitude, control_attitude_core, caRatesFinal, caPlatform, caPlatformB,
      caPlatformBase, caWvActive, car_rates_err, car_rates, car_rates_raw, car_rates_int0,
      pid_attenuations, ude_reset, vset, zv3, constrain, stC4, base, ext0]
  have hU : (run_ude_branch ext0 (1 / 250) stC4).ude.u_total 2 = 0 := by
    simp only [run_ude_branch, run_platform_u]
    rw [if_pos hupl]
    simp [vset]
  have hne : (run_rattitude stC4).switch_ude ≠ 0 := by
    rw [hA]
    norm_num [stC4, base]
  refine ⟨by norm_num [stC4, base], ?_, ?_⟩
  · simp only [run]
    rw [if_pos hne]
    rw [if_neg (show
        ¬ ((run_ude_branch ext0 (1 / 250) (run_rattitude stC4)).flag_control_termination_enabled
            = true ∧ (run_ude_branch ext0 (1 / 250) (run_rattitude stC4)).is_vtol = false) from
      fun hc => by rw [hA, hflag] at hc; exact Bool.false_ne_true hc.1)]
    rw [hA]
    exact hAtt
  · simp only [run]
    rw [if_pos hne]
    rw [if_neg (show
        ¬ ((run_ude_branch ext0 (1 / 250) (run_rattitude stC4)).flag_control_termination_enabled
            = true ∧ (run_ude_branch ext0 (1 / 250) (run_rattitude stC4)).is_vtol = false) from
      fun hc => by rw [hA, hflag] at hc; exact Bool.false_ne_true hc.1)]
    rw [hA]
    exact hU

/-- Concrete state for the claim C4 witness: cascade UDE variant active,
platform mode off, mixer bypassed, battery scaling off. -/
def stC4w : St := { base with switch_ude := 2 }

/-- Claim C4 (witness): the amended theorem instantiated on a concrete
state. -/
theorem c4_yaw_passthrough_witness :
    (run ext0 (1 / 250) stC4w).ude.u_total 2 = (run ext0 (1 / 250) stC4w).att_control 2 ∧
      (run ext0 (1 / 250) stC4w).actuators 2 = (run ext0 (1 / 250) stC4w).att_control 2 :=
  ⟨(c4_yaw_passthrough ext0 (1 / 250) stC4w (Or.inr (Or.inl rfl))
      (by norm_num [stC4w, base]) (by norm_num [stC4w, base])).1,
    (c4_yaw_passthrough ext0 (1 / 250) stC4w (Or.inr (Or.inl rfl))
      (by norm_num [stC4w, base]) (by norm_num [stC4w, base])).2 rfl
      (by norm_num [stC4w, base])⟩

end MC
